import Mathlib

/-
  Verification of the EVA assistant command router
  (server/core/commands.py: CommandParser.parse, execute_command and the
  per-family executor functions).

  The Python code is shallowly embedded as follows:
  * regular expressions are embedded by a small backtracking matcher `reM`
    over an explicit regex syntax `RE`; each compiled pattern of the source
    (TIME_QUERY, REMINDER_WITH_TEXT, ...) is transcribed into that syntax;
    `re.IGNORECASE` is modelled by case-folding each input character
    (ASCII + Cyrillic) before comparing it with the (lower-case) pattern
    character, so captured text keeps its original case as in Python;
  * `datetime.now()` is modelled by an explicit `Clock` argument carrying
    the current absolute time in minutes together with the calendar fields
    the date branch reads (weekday/day/month/year); `timedelta` addition
    becomes addition of minutes;
  * `CommandParser.parse` becomes `parse`; since the code can raise
    (the weather-forecast branch reads `match.group(4)` of a pattern that
    only has three groups), `parse` returns `Except String CommandResult`;
  * every external collaborator (scheduler, integration registry, weather
    service, notes manager, mood tracker, calendar, briefing generator,
    habit tracker, learning module) is a record of operations returning
    `Except String _`; a Python exception raised by a collaborator call is
    the `.error` case, and each executor's `try/except` is the surrounding
    `match` converting `.error e` into the tuple the source builds.
-/

/-! ## String utilities mirroring the Python primitives used -/

/-- Whitespace test matching the characters Python's `\s` / `str.strip`
handle for the ASCII range used by the source patterns. -/
def isWS (c : Char) : Bool :=
  c = ' ' || c = '\t' || c = '\n' || c = '\r' || c = '\x0b' || c = '\x0c'

/-- Case folding used to model `re.IGNORECASE` and `str.lower()`:
ASCII letters plus the Cyrillic range А-Я and Ё. -/
def ruLower (c : Char) : Char :=
  if 0x410 ≤ c.toNat ∧ c.toNat ≤ 0x42F then Char.ofNat (c.toNat + 0x20)
  else if c.toNat = 0x401 then Char.ofNat 0x451
  else c.toLower

/-- `str.lower()` over a whole string. -/
def lowerAll (s : String) : String := String.mk (s.data.map ruLower)

/-- `str.strip()`. -/
def pyStrip (s : String) : String :=
  String.mk (((s.data.dropWhile isWS).reverse.dropWhile isWS).reverse)

/-- Boolean list-prefix test. -/
def prefixOfB : List Char → List Char → Bool
  | [], _ => true
  | _ :: _, [] => false
  | a :: as, b :: bs => a = b && prefixOfB as bs

/-- Boolean substring test on character lists (`needle in hay` in Python). -/
def subListB (needle : List Char) : List Char → Bool
  | [] => prefixOfB needle []
  | c :: rest => prefixOfB needle (c :: rest) || subListB needle rest

/-- `needle in hay` for strings. -/
def containsSub (hay needle : String) : Bool := subListB needle.data hay.data

/-- `hay.startswith(pre)` for strings. -/
def strStartsWith (hay pre : String) : Bool := prefixOfB pre.data hay.data

/-- `int(s)` for a string of decimal digits (the only use in the source). -/
def strToNat (s : String) : Nat :=
  s.data.foldl (fun n c => n * 10 + (c.toNat - 48)) 0

/-- First `n` characters, `s[:n]` in Python. -/
def strTake (n : Nat) (s : String) : String := String.mk (s.data.take n)

/-- Python truthiness of an optional string (`None` and `""` are falsy). -/
def truthy : Option String → Bool
  | none => false
  | some s => !(s = "")

/-- Python `a or b` on optional strings. -/
def pyOrS (a b : Option String) : Option String := if truthy a then a else b

/-- Zero-padded two digit rendering, as in `strftime('%H:%M')` components. -/
def pad2 (n : Nat) : String := if n < 10 then "0" ++ toString n else toString n

/-- The single-quote character, used by the source in messages and
character classes. -/
def quoteS : String := String.singleton (Char.ofNat 39)

/-! ## A small backtracking regex matcher

`RE` covers exactly the constructs the source's patterns use: literals,
character classes, concatenation, ordered alternation, greedy and lazy
repetition, option, capturing groups and the `$` anchor.  `reM` is a
continuation-passing backtracking matcher; the `Bool` on `star` selects
greedy (`true`: try one more iteration first) or lazy (`false`: try the
continuation first), reproducing Python's preference order.  A fuel
argument makes the recursion structural; every star body in the
transcribed patterns consumes at least one character, so the generous
fuel of `reFuel` can never be exhausted before the search space is. -/

inductive RE where
  | eps : RE
  | ch (p : Char → Bool) : RE
  | cat (a b : RE) : RE
  | alt (a b : RE) : RE
  | star (greedy : Bool) (a : RE) : RE
  | grp (idx : Nat) (a : RE) : RE
  | eos : RE

/-- Captured groups: group index paired with the captured characters;
the most recent capture of an index is the first hit when looking up. -/
abbrev Groups := List (Nat × List Char)

def reM : Nat → RE → List Char → Groups → (List Char → Groups → Option Groups) → Option Groups
  | 0, _, _, _, _ => none
  | Nat.succ f, r, cs, g, k =>
    match r with
    | RE.eps => k cs g
    | RE.ch p =>
      match cs with
      | [] => none
      | c :: rest => if p c then k rest g else none
    | RE.cat a b => reM f a cs g (fun cs2 g2 => reM f b cs2 g2 k)
    | RE.alt a b =>
      match reM f a cs g k with
      | some res => some res
      | none => reM f b cs g k
    | RE.star true a =>
      match reM f a cs g (fun cs2 g2 => reM f (RE.star true a) cs2 g2 k) with
      | some res => some res
      | none => k cs g
    | RE.star false a =>
      match k cs g with
      | some res => some res
      | none => reM f a cs g (fun cs2 g2 => reM f (RE.star false a) cs2 g2 k)
    | RE.grp i a =>
      reM f a cs g (fun cs2 g2 => k cs2 ((i, cs.take (cs.length - cs2.length)) :: g2))
    | RE.eos =>
      match cs with
      | [] => k cs g
      | _ :: _ => none

/-- Fuel bound: recursion depth of a single match attempt is linear in the
pattern size plus the input length; this bound is far above both. -/
def reFuel (n : Nat) : Nat := 2000 + 8 * n

/-- `re.search` semantics: try a match starting at each position, leftmost
start first. -/
def reSearchAux (r : RE) : List Char → Option Groups
  | [] => reM (reFuel 0) r [] [] (fun _ g => some g)
  | c :: rest =>
    match reM (reFuel (rest.length + 1)) r (c :: rest) [] (fun _ g => some g) with
    | some g => some g
    | none => reSearchAux r rest

def reSearch (r : RE) (s : String) : Option Groups := reSearchAux r s.data

/-- `match.group(i)`: `none` models Python's `None` (group not matched). -/
def group (g : Groups) (i : Nat) : Option String :=
  (g.find? (fun p => p.1 = i)).map (fun p => String.mk p.2)

/-! ### Pattern constructors -/

/-- A literal (case-insensitive) pattern character. -/
def lch (c : Char) : RE := RE.ch (fun d => ruLower d = c)

/-- A literal (case-insensitive) word. -/
def rs (s : String) : RE := (s.data.map lch).foldr RE.cat RE.eps

/-- Ordered alternation of a list of alternatives (Python `a|b|c`). -/
def reOr (l : List RE) : RE :=
  match l with
  | [] => RE.eps
  | r :: rest => rest.foldl RE.alt r

/-- Concatenation of a list. -/
def reCat (l : List RE) : RE := l.foldr RE.cat RE.eps

def wsCh : RE := RE.ch isWS
/-- `\s+` -/
def wsP : RE := RE.cat wsCh (RE.star true wsCh)
/-- `\s*` -/
def wsS : RE := RE.star true wsCh
def digitCh : RE := RE.ch Char.isDigit
/-- `(\d+)` captured as group `i`. -/
def numG (i : Nat) : RE := RE.grp i (RE.cat digitCh (RE.star true digitCh))
/-- `.` (anything but a newline). -/
def dotCh : RE := RE.ch (fun c => c ≠ '\n')
/-- `.*?` -/
def gapLazy : RE := RE.star false dotCh
/-- `(.+)` captured as group `i`. -/
def anyG (i : Nat) : RE := RE.grp i (RE.cat dotCh (RE.star true dotCh))
/-- `(.+?)` captured as group `i`. -/
def anyLazyG (i : Nat) : RE := RE.grp i (RE.cat dotCh (RE.star false dotCh))
/-- Greedy `?`. -/
def reOpt (r : RE) : RE := RE.alt r RE.eps
/-- A character class of explicit characters. -/
def chSet (l : List Char) : RE := RE.ch (fun d => l.contains (ruLower d))
/-- `[:\s]+` -/
def colonWsP : RE :=
  RE.cat (RE.ch (fun c => c = ':' || isWS c)) (RE.star true (RE.ch (fun c => c = ':' || isWS c)))
/-- `["\']` -/
def quoteCh : RE := chSet ['"', Char.ofNat 39]

/-! ## The pattern library (transcribed from the source's compiled regexes) -/

/-- `(?:напомни|напомнить|reminder).*?(?:через|in)\s*(\d+)\s*(?:минут|мин|minutes?|mins?)` -/
def MINUTES_PATTERN : RE := reCat [
  reOr [rs "напомни", rs "напомнить", rs "reminder"], gapLazy,
  reOr [rs "через", rs "in"], wsS, numG 1, wsS,
  reOr [rs "минут", rs "мин", RE.cat (rs "minute") (reOpt (rs "s")), RE.cat (rs "min") (reOpt (rs "s"))]]

/-- `(?:напомни|напомнить|reminder).*?(?:через|in)\s*(\d+)\s*(?:час|часа|часов|hours?|hrs?)` -/
def HOURS_PATTERN : RE := reCat [
  reOr [rs "напомни", rs "напомнить", rs "reminder"], gapLazy,
  reOr [rs "через", rs "in"], wsS, numG 1, wsS,
  reOr [rs "час", rs "часа", rs "часов", RE.cat (rs "hour") (reOpt (rs "s")), RE.cat (rs "hr") (reOpt (rs "s"))]]

/-- `(?:таймер|timer).*?(?:на|for)\s*(\d+)\s*(?:минут|мин|minutes?|mins?)` -/
def TIMER_PATTERN : RE := reCat [
  reOr [rs "таймер", rs "timer"], gapLazy,
  reOr [rs "на", rs "for"], wsS, numG 1, wsS,
  reOr [rs "минут", rs "мин", RE.cat (rs "minute") (reOpt (rs "s")), RE.cat (rs "min") (reOpt (rs "s"))]]

/-- `(?:включи|включить|врубай|врубить|turn\s*on|switch\s*on)\s+(.+)` -/
def TURN_ON_PATTERN : RE := reCat [
  reOr [rs "включи", rs "включить", rs "врубай", rs "врубить",
    reCat [rs "turn", wsS, rs "on"], reCat [rs "switch", wsS, rs "on"]],
  wsP, anyG 1]

/-- `(?:выключи|выключить|выруби|вырубить|погаси|turn\s*off|switch\s*off)\s+(.+)` -/
def TURN_OFF_PATTERN : RE := reCat [
  reOr [rs "выключи", rs "выключить", rs "выруби", rs "вырубить", rs "погаси",
    reCat [rs "turn", wsS, rs "off"], reCat [rs "switch", wsS, rs "off"]],
  wsP, anyG 1]

/-- `(?:статус|состояние|status|state)\s+(?:of\s+)?(.+)` -/
def DEVICE_STATUS_PATTERN : RE := reCat [
  reOr [rs "статус", rs "состояние", rs "status", rs "state"],
  wsP, reOpt (reCat [rs "of", wsP]), anyG 1]

/-- `(?:помидор|pomodoro|помодоро)(?:\s+(?:на|for)\s+(\d+)\s*(?:минут|мин|minutes?)?)?` -/
def POMODORO_PATTERN : RE := reCat [
  reOr [rs "помидор", rs "pomodoro", rs "помодоро"],
  reOpt (reCat [wsP, reOr [rs "на", rs "for"], wsP, numG 1, wsS,
    reOpt (reOr [rs "минут", rs "мин", RE.cat (rs "minute") (reOpt (rs "s"))])])]

/-- `(?:перерыв|break|отдых)\s*(?:на\s+)?(\d+)?\s*(?:минут|мин|minutes?)?` -/
def POMODORO_BREAK_PATTERN : RE := reCat [
  reOr [rs "перерыв", rs "break", rs "отдых"], wsS,
  reOpt (reCat [rs "на", wsP]), reOpt (numG 1), wsS,
  reOpt (reOr [rs "минут", rs "мин", RE.cat (rs "minute") (reOpt (rs "s"))])]

/-- `(?:который\s+час|сколько\s+времени|what\s+time|current\s+time)` -/
def TIME_QUERY : RE := reOr [
  reCat [rs "который", wsP, rs "час"], reCat [rs "сколько", wsP, rs "времени"],
  reCat [rs "what", wsP, rs "time"], reCat [rs "current", wsP, rs "time"]]

/-- `(?:какой\s+сегодня\s+день|какая\s+дата|what\s+day|today\'?s?\s+date|current\s+date)` -/
def DATE_QUERY : RE := reOr [
  reCat [rs "какой", wsP, rs "сегодня", wsP, rs "день"],
  reCat [rs "какая", wsP, rs "дата"],
  reCat [rs "what", wsP, rs "day"],
  reCat [rs "today", reOpt (chSet [Char.ofNat 39]), reOpt (rs "s"), wsP, rs "date"],
  reCat [rs "current", wsP, rs "date"]]

/-- The duration-unit alternation of REMINDER_WITH_TEXT:
`(?:минут|мин|час|часа|часов|minutes?|mins?|hours?|hrs?)` -/
def rwUnits : RE := reOr [rs "минут", rs "мин", rs "час", rs "часа", rs "часов",
  RE.cat (rs "minute") (reOpt (rs "s")), RE.cat (rs "min") (reOpt (rs "s")),
  RE.cat (rs "hour") (reOpt (rs "s")), RE.cat (rs "hr") (reOpt (rs "s"))]

/-- `(?:напомни|напомнить|remind\s+me?).*?(?:через|in)\s*(\d+)\s*<units>[:\s]+["\']?(.+?)["\']?$` -/
def REMINDER_WITH_TEXT : RE := reCat [
  reOr [rs "напомни", rs "напомнить", reCat [rs "remind", wsP, rs "m", reOpt (rs "e")]],
  gapLazy, reOr [rs "через", rs "in"], wsS, numG 1, wsS, rwUnits,
  colonWsP, reOpt quoteCh, anyLazyG 2, reOpt quoteCh, RE.eos]

/-- `(?:какая\s+)?погода(?:\s+(?:в|in)\s+(.+?))?(?:\s+сейчас|\s+сегодня)?$|weather(?:\s+in\s+(.+?))?(?:\s+now|\s+today)?$` -/
def WEATHER_CURRENT : RE := RE.alt
  (reCat [reOpt (reCat [rs "какая", wsP]), rs "погода",
    reOpt (reCat [wsP, reOr [rs "в", rs "in"], wsP, anyLazyG 1]),
    reOpt (reOr [reCat [wsP, rs "сейчас"], reCat [wsP, rs "сегодня"]]), RE.eos])
  (reCat [rs "weather", reOpt (reCat [wsP, rs "in", wsP, anyLazyG 2]),
    reOpt (reOr [reCat [wsP, rs "now"], reCat [wsP, rs "today"]]), RE.eos])

/-- `прогноз\s+погоды(?:\s+(?:в|in|на)\s+(.+?))?|погода\s+(?:на\s+)?(?:завтра|неделю|(\d+)\s+дн)|weather\s+forecast(?:\s+(?:in|for)\s+(.+?))?`

Note: the compiled pattern has exactly three capturing groups, while the
source's branch reads `match.group(4)` — see `ruleWeatherForecast`. -/
def WEATHER_FORECAST : RE := reOr [
  reCat [rs "прогноз", wsP, rs "погоды", reOpt (reCat [wsP, reOr [rs "в", rs "in", rs "на"], wsP, anyLazyG 1])],
  reCat [rs "погода", wsP, reOpt (reCat [rs "на", wsP]),
    reOr [rs "завтра", rs "неделю", reCat [numG 2, wsP, rs "дн"]]],
  reCat [rs "weather", wsP, rs "forecast", reOpt (reCat [wsP, reOr [rs "in", rs "for"], wsP, anyLazyG 3])]]

/-- `(?:запомни|запиши|заметка|note|remember)[:\s]+(.+)` -/
def NOTE_ADD : RE := reCat [
  reOr [rs "запомни", rs "запиши", rs "заметка", rs "note", rs "remember"], colonWsP, anyG 1]

/-- `(?:мои\s+)?заметки|(?:покажи|список)\s+заметок?|my\s+notes|show\s+notes` -/
def NOTE_LIST : RE := reOr [
  reCat [reOpt (reCat [rs "мои", wsP]), rs "заметки"],
  reCat [reOr [rs "покажи", rs "список"], wsP, rs "замето", reOpt (rs "к")],
  reCat [rs "my", wsP, rs "notes"], reCat [rs "show", wsP, rs "notes"]]

/-- `(?:найди|поиск)\s+(?:в\s+)?заметк[аиу][хх]?\s+(.+)|search\s+notes?\s+(.+)` -/
def NOTE_SEARCH : RE := reOr [
  reCat [reOr [rs "найди", rs "поиск"], wsP, reOpt (reCat [rs "в", wsP]),
    rs "заметк", chSet ['а', 'и', 'у'], reOpt (chSet ['х']), wsP, anyG 1],
  reCat [rs "search", wsP, rs "note", reOpt (rs "s"), wsP, anyG 2]]

/-- `(?:добавь|создай|новая)\s+задач[ау][:\s]+(.+)|(?:add|create|new)\s+task[:\s]+(.+)|задача[:\s]+(.+)` -/
def TASK_ADD : RE := reOr [
  reCat [reOr [rs "добавь", rs "создай", rs "новая"], wsP, rs "задач", chSet ['а', 'у'], colonWsP, anyG 1],
  reCat [reOr [rs "add", rs "create", rs "new"], wsP, rs "task", colonWsP, anyG 2],
  reCat [rs "задача", colonWsP, anyG 3]]

/-- `(?:срочн[ао]|urgent)[:\s]+(.+)` -/
def TASK_ADD_URGENT : RE := reCat [
  reOr [reCat [rs "срочн", chSet ['а', 'о']], rs "urgent"], colonWsP, anyG 1]

/-- `(?:мои\s+)?задачи|(?:покажи|список)\s+задач|my\s+tasks|show\s+tasks|todo|туду` -/
def TASK_LIST : RE := reOr [
  reCat [reOpt (reCat [rs "мои", wsP]), rs "задачи"],
  reCat [reOr [rs "покажи", rs "список"], wsP, rs "задач"],
  reCat [rs "my", wsP, rs "tasks"], reCat [rs "show", wsP, rs "tasks"],
  rs "todo", rs "туду"]

/-- `(?:сделано|готово|выполнено|done|complete)[:\s]+(.+)|(?:закрой|завершить)\s+задачу[:\s]+(.+)` -/
def TASK_DONE : RE := reOr [
  reCat [reOr [rs "сделано", rs "готово", rs "выполнено", rs "done", rs "complete"], colonWsP, anyG 1],
  reCat [reOr [rs "закрой", rs "завершить"], wsP, rs "задачу", colonWsP, anyG 2]]

/-- `(?:я\s+)?(?:чувствую\s+себя|настроение|mood)[:\s]+(.+)|(?:мне\s+)?(?:хорошо|плохо|грустно|отлично|устал[аи]?|стресс)` -/
def MOOD_LOG : RE := reOr [
  reCat [reOpt (reCat [rs "я", wsP]),
    reOr [reCat [rs "чувствую", wsP, rs "себя"], rs "настроение", rs "mood"], colonWsP, anyG 1],
  reCat [reOpt (reCat [rs "мне", wsP]),
    reOr [rs "хорошо", rs "плохо", rs "грустно", rs "отлично",
      reCat [rs "устал", reOpt (chSet ['а', 'и'])], rs "стресс"]]]

/-- `(?:моё?\s+)?(?:настроение|mood)\s+(?:за\s+неделю|статистика|stats)|как\s+(?:я\s+)?себя\s+чувствовал|mood\s+history` -/
def MOOD_STATS : RE := reOr [
  reCat [reOpt (reCat [rs "мо", reOpt (rs "ё"), wsP]), reOr [rs "настроение", rs "mood"], wsP,
    reOr [reCat [rs "за", wsP, rs "неделю"], rs "статистика", rs "stats"]],
  reCat [rs "как", wsP, reOpt (reCat [rs "я", wsP]), rs "себя", wsP, rs "чувствовал"],
  reCat [rs "mood", wsP, rs "history"]]

/-- `(?:что\s+)?(?:у\s+меня\s+)?(?:сегодня|today)(?:\s+в\s+календаре)?|(?:мои\s+)?(?:события|встречи|планы)\s+(?:на\s+)?сегодня|(?:расписание|schedule)\s+(?:на\s+)?(?:сегодня|today)` -/
def CALENDAR_TODAY : RE := reOr [
  reCat [reOpt (reCat [rs "что", wsP]), reOpt (reCat [rs "у", wsP, rs "меня", wsP]),
    reOr [rs "сегодня", rs "today"], reOpt (reCat [wsP, rs "в", wsP, rs "календаре"])],
  reCat [reOpt (reCat [rs "мои", wsP]), reOr [rs "события", rs "встречи", rs "планы"], wsP,
    reOpt (reCat [rs "на", wsP]), rs "сегодня"],
  reCat [reOr [rs "расписание", rs "schedule"], wsP, reOpt (reCat [rs "на", wsP]),
    reOr [rs "сегодня", rs "today"]]]

/-- `(?:что\s+)?(?:у\s+меня\s+)?(?:на\s+неделе|на\s+этой\s+неделе|upcoming)|(?:мой\s+)?(?:календарь|calendar)|(?:ближайшие\s+)?(?:события|встречи|events)` -/
def CALENDAR_UPCOMING : RE := reOr [
  reCat [reOpt (reCat [rs "что", wsP]), reOpt (reCat [rs "у", wsP, rs "меня", wsP]),
    reOr [reCat [rs "на", wsP, rs "неделе"], reCat [rs "на", wsP, rs "этой", wsP, rs "неделе"], rs "upcoming"]],
  reCat [reOpt (reCat [rs "мой", wsP]), reOr [rs "календарь", rs "calendar"]],
  reCat [reOpt (reCat [rs "ближайшие", wsP]), reOr [rs "события", rs "встречи", rs "events"]]]

/-- `(?:утренний\s+)?(?:брифинг|briefing)|(?:доброе\s+утро|good\s+morning)(?:\s+eva)?|что\s+(?:нового|у\s+меня\s+нового)|(?:дай\s+)?(?:сводку|summary|обзор)|расскажи\s+(?:что\s+)?(?:на\s+)?сегодня` -/
def BRIEFING_PATTERN : RE := reOr [
  reCat [reOpt (reCat [rs "утренний", wsP]), reOr [rs "брифинг", rs "briefing"]],
  reCat [reOr [reCat [rs "доброе", wsP, rs "утро"], reCat [rs "good", wsP, rs "morning"]],
    reOpt (reCat [wsP, rs "eva"])],
  reCat [rs "что", wsP, reOr [rs "нового", reCat [rs "у", wsP, rs "меня", wsP, rs "нового"]]],
  reCat [reOpt (reCat [rs "дай", wsP]), reOr [rs "сводку", rs "summary", rs "обзор"]],
  reCat [rs "расскажи", wsP, reOpt (reCat [rs "что", wsP]), reOpt (reCat [rs "на", wsP]), rs "сегодня"]]

/-- `(?:новая\s+)?привычка[:\s]+(.+)|(?:отслеживай|track)\s+(?:привычку\s+)?(.+)|(?:add|new)\s+habit[:\s]+(.+)` -/
def HABIT_ADD : RE := reOr [
  reCat [reOpt (reCat [rs "новая", wsP]), rs "привычка", colonWsP, anyG 1],
  reCat [reOr [rs "отслеживай", rs "track"], wsP, reOpt (reCat [rs "привычку", wsP]), anyG 2],
  reCat [reOr [rs "add", rs "new"], wsP, rs "habit", colonWsP, anyG 3]]

/-- `(?:мои\s+)?привычки|(?:список\s+)?привычек|(?:my\s+)?habits|habit\s+list` -/
def HABIT_LIST : RE := reOr [
  reCat [reOpt (reCat [rs "мои", wsP]), rs "привычки"],
  reCat [reOpt (reCat [rs "список", wsP]), rs "привычек"],
  reCat [reOpt (reCat [rs "my", wsP]), rs "habits"],
  reCat [rs "habit", wsP, rs "list"]]

/-- `(?:привычка\s+)?(?:выполнена?|сделана?|done)[:\s]+(.+)|(?:выполнил|сделал)\s+(.+)|(?:completed?|did)\s+(.+)` -/
def HABIT_DONE : RE := reOr [
  reCat [reOpt (reCat [rs "привычка", wsP]),
    reOr [reCat [rs "выполнен", reOpt (rs "а")], reCat [rs "сделан", reOpt (rs "а")], rs "done"],
    colonWsP, anyG 1],
  reCat [reOr [rs "выполнил", rs "сделал"], wsP, anyG 2],
  reCat [reOr [reCat [rs "complete", reOpt (rs "d")], rs "did"], wsP, anyG 3]]

/-- `(?:статус\s+)?привыч(?:ки|ек)\s+(?:на\s+)?сегодня|(?:today\'?s?\s+)?habit(?:s)?\s+(?:status|progress)` -/
def HABIT_STATUS : RE := reOr [
  reCat [reOpt (reCat [rs "статус", wsP]), rs "привыч", reOr [rs "ки", rs "ек"], wsP,
    reOpt (reCat [rs "на", wsP]), rs "сегодня"],
  reCat [reOpt (reCat [rs "today", reOpt (chSet [Char.ofNat 39]), reOpt (rs "s"), wsP]),
    rs "habit", reOpt (rs "s"), wsP, reOr [rs "status", rs "progress"]]]

/-- `(?:что\s+)?(?:ты\s+)?(?:знаешь|помнишь)\s+(?:обо?\s+)?мне|(?:как\s+)?ты\s+(?:эволюционировала|развилась|изменилась)|(?:what\s+)?(?:do\s+)?you\s+know\s+about\s+me` -/
def LEARNING_STATUS : RE := reOr [
  reCat [reOpt (reCat [rs "что", wsP]), reOpt (reCat [rs "ты", wsP]),
    reOr [rs "знаешь", rs "помнишь"], wsP, reOpt (reCat [rs "об", reOpt (rs "о"), wsP]), rs "мне"],
  reCat [reOpt (reCat [rs "как", wsP]), rs "ты", wsP,
    reOr [rs "эволюционировала", rs "развилась", rs "изменилась"]],
  reCat [reOpt (reCat [rs "what", wsP]), reOpt (reCat [rs "do", wsP]),
    rs "you", wsP, rs "know", wsP, rs "about", wsP, rs "me"]]

/-- `(?:отвечай\s+)?(?:короче|кратко|подробнее|веселее|серьёзнее)|(?:будь\s+)?(?:менее|более)\s+(?:формальн|серьёзн|весёл)|(?:используй|не\s+используй)\s+(?:эмодзи|смайлики)` -/
def LEARNING_FEEDBACK : RE := reOr [
  reCat [reOpt (reCat [rs "отвечай", wsP]),
    reOr [rs "короче", rs "кратко", rs "подробнее", rs "веселее", rs "серьёзнее"]],
  reCat [reOpt (reCat [rs "будь", wsP]), reOr [rs "менее", rs "более"], wsP,
    reOr [rs "формальн", rs "серьёзн", rs "весёл"]],
  reCat [reOr [rs "используй", reCat [rs "не", wsP, rs "используй"]], wsP,
    reOr [rs "эмодзи", rs "смайлики"]]]

/-! ## Data model -/

/-- A value stored in `CommandResult.params` (Python dict values used by
the source: strings, integers, booleans, `None`, and the `run_at`
timestamp which we keep as absolute minutes). -/
inductive PValue where
  | s (v : String) : PValue
  | n (v : Nat) : PValue
  | b (v : Bool) : PValue
  | null : PValue
deriving DecidableEq, Repr

/-- `result.params.get(key)` (`None` when absent). -/
def pget : List (String × PValue) → String → Option PValue
  | [], _ => none
  | (k, v) :: rest, key => if k = key then some v else pget rest key

/-- `result.params.get(key, default)` for string values. -/
def pgetS (ps : List (String × PValue)) (key : String) : Option String :=
  match pget ps key with
  | some (PValue.s v) => some v
  | _ => none

def pgetN (ps : List (String × PValue)) (key : String) : Option Nat :=
  match pget ps key with
  | some (PValue.n v) => some v
  | _ => none

def pgetB (ps : List (String × PValue)) (key : String) : Option Bool :=
  match pget ps key with
  | some (PValue.b v) => some v
  | _ => none

/-- `CommandResult.__init__`: the defaults are those of the source
(`is_command=False`, `command_type=None`, `params={}` via `params or {}`,
`response=None`, `execute=True`). -/
structure CommandResult where
  is_command : Bool := false
  command_type : Option String := none
  params : List (String × PValue) := []
  response : Option String := none
  execute : Bool := true
deriving DecidableEq, Repr

/-- The values `datetime.now()` supplies to the parser: absolute time in
minutes (for `run_at` arithmetic and `%H:%M`) plus the calendar fields
read by the date branch (`weekday()` with Monday = 0, `day`,
`month` 1-12, `year`). -/
structure Clock where
  nowMin : Nat := 0
  weekday : Nat := 0
  day : Nat := 1
  month : Nat := 1
  year : Nat := 2024
deriving DecidableEq, Repr

def weekdays_ru : List String :=
  ["понедельник", "вторник", "среда", "четверг", "пятница", "суббота", "воскресенье"]

def months_ru : List String :=
  ["января", "февраля", "марта", "апреля", "мая", "июня",
   "июля", "августа", "сентября", "октября", "ноября", "декабря"]

/-! ## Branch results of `CommandParser.parse` -/

def timeResult (c : Clock) : CommandResult :=
  { is_command := true, command_type := some "time",
    response := some ("Сейчас " ++ pad2 (c.nowMin / 60 % 24) ++ ":" ++ pad2 (c.nowMin % 60)),
    execute := false }

def dateResult (c : Clock) : CommandResult :=
  { is_command := true, command_type := some "date",
    response := some ("Сегодня " ++ weekdays_ru.getD c.weekday "" ++ ", " ++ toString c.day
      ++ " " ++ months_ru.getD (c.month - 1) "" ++ " " ++ toString c.year ++ " года"),
    execute := false }

/-- `any(u in text.lower() for u in ['час', 'hour', 'hr'])` -/
def hourWordIn (text : String) : Bool :=
  containsSub (lowerAll text) "час" || containsSub (lowerAll text) "hour"
    || containsSub (lowerAll text) "hr"

/-- The inline hour-suffix expression the source uses twice:
`("а" if 2 <= amount <= 4 else "ов" if amount >= 5 else "")`. -/
def hourSuffix (amount : Nat) : String :=
  if 2 ≤ amount ∧ amount ≤ 4 then "а" else if 5 ≤ amount then "ов" else ""

def reminderTextResult (text u : String) (c : Clock) (amount : Nat) (rtext : String) : CommandResult :=
  let minutes := if hourWordIn text then amount * 60 else amount
  let time_str := if hourWordIn text then toString amount ++ " час" ++ hourSuffix amount
                  else toString amount ++ " минут"
  { is_command := true, command_type := some "reminder",
    params := [("user_id", PValue.s u), ("message", PValue.s rtext),
               ("minutes", PValue.n minutes), ("run_at", PValue.n (c.nowMin + minutes))],
    response := some ("Хорошо, напомню тебе через " ++ time_str ++ ": \"" ++ rtext ++ "\""),
    execute := false }

def minutesResult (u : String) (c : Clock) (minutes : Nat) : CommandResult :=
  { is_command := true, command_type := some "reminder",
    params := [("user_id", PValue.s u), ("message", PValue.s "Время пришло!"),
               ("minutes", PValue.n minutes), ("run_at", PValue.n (c.nowMin + minutes))],
    response := some ("Окей, напомню через " ++ toString minutes ++ " минут!"),
    execute := false }

def hoursResult (u : String) (c : Clock) (hours : Nat) : CommandResult :=
  { is_command := true, command_type := some "reminder",
    params := [("user_id", PValue.s u), ("message", PValue.s "Время пришло!"),
               ("minutes", PValue.n (hours * 60)), ("run_at", PValue.n (c.nowMin + hours * 60))],
    response := some ("Окей, напомню через " ++ toString hours ++ " час" ++ hourSuffix hours ++ "!"),
    execute := false }

def timerResult (u : String) (c : Clock) (minutes : Nat) : CommandResult :=
  { is_command := true, command_type := some "timer",
    params := [("user_id", PValue.s u),
               ("message", PValue.s ("Таймер на " ++ toString minutes ++ " минут завершён!")),
               ("minutes", PValue.n minutes), ("run_at", PValue.n (c.nowMin + minutes))],
    response := some ("Таймер на " ++ toString minutes ++ " минут запущен!"),
    execute := false }

def pomodoroResult (u : String) (c : Clock) (m : Option Nat) : CommandResult :=
  let minutes := m.getD 25
  { is_command := true, command_type := some "pomodoro",
    params := [("user_id", PValue.s u),
               ("message", PValue.s "🍅 Помидор завершён! Время для перерыва."),
               ("minutes", PValue.n minutes), ("run_at", PValue.n (c.nowMin + minutes))],
    response := some ("🍅 Помидор на " ++ toString minutes
      ++ " минут запущен! Фокусируйся, я напомню когда закончится."),
    execute := false }

def breakResult (u : String) (c : Clock) (m : Option Nat) : CommandResult :=
  let minutes := m.getD 5
  { is_command := true, command_type := some "break",
    params := [("user_id", PValue.s u),
               ("message", PValue.s "☕ Перерыв окончен! Готов к новому помидору?"),
               ("minutes", PValue.n minutes), ("run_at", PValue.n (c.nowMin + minutes))],
    response := some ("☕ Отдыхай " ++ toString minutes ++ " минут. Я скажу когда пора возвращаться."),
    execute := false }

def pvalOfCity (city : Option String) : PValue :=
  match city with
  | some s => PValue.s s
  | none => PValue.null

def weatherCurResult (city : Option String) : CommandResult :=
  { is_command := true, command_type := some "weather",
    params := [("city", pvalOfCity city), ("forecast", PValue.b false)],
    response := none, execute := false }

def weatherFcResult (city : String) (days : Nat) : CommandResult :=
  { is_command := true, command_type := some "weather",
    params := [("city", PValue.s city), ("forecast", PValue.b true), ("days", PValue.n days)],
    response := none, execute := false }

def noteAddResult (u content : String) : CommandResult :=
  { is_command := true, command_type := some "note_add",
    params := [("user_id", PValue.s u), ("content", PValue.s content)],
    response := none, execute := false }

def noteListResult (u : String) : CommandResult :=
  { is_command := true, command_type := some "note_list",
    params := [("user_id", PValue.s u)], response := none, execute := false }

def noteSearchResult (u q : String) : CommandResult :=
  { is_command := true, command_type := some "note_search",
    params := [("user_id", PValue.s u), ("query", PValue.s q)],
    response := none, execute := false }

def taskUrgentResult (u title : String) : CommandResult :=
  { is_command := true, command_type := some "task_add",
    params := [("user_id", PValue.s u), ("title", PValue.s title), ("priority", PValue.s "urgent")],
    response := none, execute := false }

def taskAddResult (u title : String) : CommandResult :=
  { is_command := true, command_type := some "task_add",
    params := [("user_id", PValue.s u), ("title", PValue.s title), ("priority", PValue.s "normal")],
    response := none, execute := false }

def taskListResult (u : String) : CommandResult :=
  { is_command := true, command_type := some "task_list",
    params := [("user_id", PValue.s u)], response := none, execute := false }

def taskDoneResult (u title : String) : CommandResult :=
  { is_command := true, command_type := some "task_done",
    params := [("user_id", PValue.s u), ("title", PValue.s title)],
    response := none, execute := false }

def moodStatsResult (u : String) : CommandResult :=
  { is_command := true, command_type := some "mood_stats",
    params := [("user_id", PValue.s u)], response := none, execute := false }

def moodLogResult (u txt : String) : CommandResult :=
  { is_command := true, command_type := some "mood_log",
    params := [("user_id", PValue.s u), ("text", PValue.s txt)],
    response := none, execute := false }

def calendarTodayResult (u : String) : CommandResult :=
  { is_command := true, command_type := some "calendar_today",
    params := [("user_id", PValue.s u)], response := none, execute := false }

def calendarUpcomingResult (u : String) : CommandResult :=
  { is_command := true, command_type := some "calendar_upcoming",
    params := [("user_id", PValue.s u)], response := none, execute := false }

def briefingResult (u : String) : CommandResult :=
  { is_command := true, command_type := some "briefing",
    params := [("user_id", PValue.s u)], response := none, execute := false }

def habitStatusResult (u : String) : CommandResult :=
  { is_command := true, command_type := some "habit_status",
    params := [("user_id", PValue.s u)], response := none, execute := false }

def habitAddResult (u nm : String) : CommandResult :=
  { is_command := true, command_type := some "habit_add",
    params := [("user_id", PValue.s u), ("name", PValue.s nm)],
    response := none, execute := false }

def habitListResult (u : String) : CommandResult :=
  { is_command := true, command_type := some "habit_list",
    params := [("user_id", PValue.s u)], response := none, execute := false }

def habitDoneResult (u nm : String) : CommandResult :=
  { is_command := true, command_type := some "habit_done",
    params := [("user_id", PValue.s u), ("name", PValue.s nm)],
    response := none, execute := false }

def learningStatusResult (u : String) : CommandResult :=
  { is_command := true, command_type := some "learning_status",
    params := [("user_id", PValue.s u)], response := none, execute := false }

def learningFeedbackResult (u text : String) : CommandResult :=
  { is_command := true, command_type := some "learning_feedback",
    params := [("user_id", PValue.s u), ("feedback", PValue.s text)],
    response := none, execute := false }

def smartHomeResult (action device u : String) : CommandResult :=
  { is_command := true, command_type := some "smart_home",
    params := [("action", PValue.s action), ("device", PValue.s device), ("user_id", PValue.s u)],
    response := none, execute := false }

/-! ## Capture extraction per pattern (the `match.group(...)` reads) -/

def boolMatch (re : RE) (s : String) : Bool := (reSearch re s).isSome

def timeQueryB (s : String) : Bool := boolMatch TIME_QUERY s
def dateQueryB (s : String) : Bool := boolMatch DATE_QUERY s

/-- `amount = int(match.group(1)); reminder_text = match.group(2).strip()`
(both groups are mandatory whenever the pattern matches). -/
def rwtCaptures (s : String) : Option (Nat × String) :=
  match reSearch REMINDER_WITH_TEXT s with
  | some g => some (strToNat ((group g 1).getD ""), pyStrip ((group g 2).getD ""))
  | none => none

def minutesCapture (s : String) : Option Nat :=
  (reSearch MINUTES_PATTERN s).map (fun g => strToNat ((group g 1).getD ""))

def hoursCapture (s : String) : Option Nat :=
  (reSearch HOURS_PATTERN s).map (fun g => strToNat ((group g 1).getD ""))

def timerCapture (s : String) : Option Nat :=
  (reSearch TIMER_PATTERN s).map (fun g => strToNat ((group g 1).getD ""))

/-- `minutes = int(match.group(1)) if match.group(1) else 25` -/
def pomodoroCapture (s : String) : Option (Option Nat) :=
  (reSearch POMODORO_PATTERN s).map (fun g => (group g 1).map strToNat)

def breakCapture (s : String) : Option (Option Nat) :=
  (reSearch POMODORO_BREAK_PATTERN s).map (fun g => (group g 1).map strToNat)

/-- `city = match.group(1) or match.group(2)` -/
def weatherCurCapture (s : String) : Option (Option String) :=
  (reSearch WEATHER_CURRENT s).map (fun g => pyOrS (group g 1) (group g 2))

def noteAddCapture (s : String) : Option String :=
  (reSearch NOTE_ADD s).map (fun g => pyStrip ((group g 1).getD ""))

def noteListB (s : String) : Bool := boolMatch NOTE_LIST s

/-- `query = (match.group(1) or match.group(2)).strip()` -/
def noteSearchCapture (s : String) : Option String :=
  (reSearch NOTE_SEARCH s).map (fun g => pyStrip ((pyOrS (group g 1) (group g 2)).getD ""))

def taskUrgentCapture (s : String) : Option String :=
  (reSearch TASK_ADD_URGENT s).map (fun g => pyStrip ((group g 1).getD ""))

/-- `title = (match.group(1) or match.group(2) or match.group(3)).strip()` -/
def taskAddCapture (s : String) : Option String :=
  (reSearch TASK_ADD s).map
    (fun g => pyStrip ((pyOrS (group g 1) (pyOrS (group g 2) (group g 3))).getD ""))

def taskListB (s : String) : Bool := boolMatch TASK_LIST s

def taskDoneCapture (s : String) : Option String :=
  (reSearch TASK_DONE s).map (fun g => pyStrip ((pyOrS (group g 1) (group g 2)).getD ""))

def moodStatsB (s : String) : Bool := boolMatch MOOD_STATS s

/-- `mood_text = match.group(1) if match.group(1) else text` (no strip). -/
def moodLogCapture (s : String) : Option String :=
  (reSearch MOOD_LOG s).map (fun g => if truthy (group g 1) then (group g 1).getD "" else s)

def calendarTodayB (s : String) : Bool := boolMatch CALENDAR_TODAY s
def calendarUpcomingB (s : String) : Bool := boolMatch CALENDAR_UPCOMING s
def briefingB (s : String) : Bool := boolMatch BRIEFING_PATTERN s
def habitStatusB (s : String) : Bool := boolMatch HABIT_STATUS s

def habitAddCapture (s : String) : Option String :=
  (reSearch HABIT_ADD s).map
    (fun g => pyStrip ((pyOrS (group g 1) (pyOrS (group g 2) (group g 3))).getD ""))

def habitListB (s : String) : Bool := boolMatch HABIT_LIST s

def habitDoneCapture (s : String) : Option String :=
  (reSearch HABIT_DONE s).map
    (fun g => pyStrip ((pyOrS (group g 1) (pyOrS (group g 2) (group g 3))).getD ""))

def learningStatusB (s : String) : Bool := boolMatch LEARNING_STATUS s
def learningFeedbackB (s : String) : Bool := boolMatch LEARNING_FEEDBACK s

def turnOnCapture (s : String) : Option String :=
  (reSearch TURN_ON_PATTERN s).map (fun g => pyStrip ((group g 1).getD ""))

def turnOffCapture (s : String) : Option String :=
  (reSearch TURN_OFF_PATTERN s).map (fun g => pyStrip ((group g 1).getD ""))

def deviceStatusCapture (s : String) : Option String :=
  (reSearch DEVICE_STATUS_PATTERN s).map (fun g => pyStrip ((group g 1).getD ""))

/-! ## The parser: an ordered chain of rules, first match wins -/

/-- One pattern rule of `CommandParser.parse`: given the (stripped) text,
the user id and the clock, either no match (`none`) or the branch's
outcome — normally a `CommandResult`, but the weather-forecast branch
can raise (`Except.error`). -/
def Rule := String → String → Clock → Option (Except String CommandResult)

/-- A rule guarded by a boolean match test (`if PATTERN.search(text):`). -/
def boolRule (cond : String → Bool) (mk : String → String → Clock → CommandResult) : Rule :=
  fun s u c => if cond s then some (Except.ok (mk s u c)) else none

/-- A rule guarded by a capture extraction (`match = PATTERN.search(text)`
followed by group reads). -/
def capRule {α : Type} (cap : String → Option α)
    (mk : α → String → String → Clock → CommandResult) : Rule :=
  fun s u c =>
    match cap s with
    | some a => some (Except.ok (mk a s u c))
    | none => none

def ruleTime : Rule := boolRule timeQueryB (fun _ _ c => timeResult c)
def ruleDate : Rule := boolRule dateQueryB (fun _ _ c => dateResult c)
def ruleReminderText : Rule :=
  capRule rwtCaptures (fun p s u c => reminderTextResult s u c p.1 p.2)
def ruleMinutes : Rule := capRule minutesCapture (fun m _ u c => minutesResult u c m)
def ruleHours : Rule := capRule hoursCapture (fun h _ u c => hoursResult u c h)
def ruleTimer : Rule := capRule timerCapture (fun m _ u c => timerResult u c m)
def rulePomodoro : Rule := capRule pomodoroCapture (fun m _ u c => pomodoroResult u c m)
def ruleBreak : Rule := capRule breakCapture (fun m _ u c => breakResult u c m)
def ruleWeatherCurrent : Rule :=
  capRule weatherCurCapture (fun city _ _ _ => weatherCurResult city)

/-- The weather-forecast branch.  The compiled pattern has exactly three
capturing groups, but the source computes
`city = match.group(1) or match.group(4)`: when `match.group(1)` is falsy
Python evaluates `match.group(4)`, which raises
`IndexError: no such group`.  When group 1 is truthy the short-circuit
avoids the bad read and `days = int(match.group(3)) if match.group(3)
else 3` is computed (group 3 is `None` in that alternative). -/
def ruleWeatherForecast : Rule := fun s _ _ =>
  match reSearch WEATHER_FORECAST s with
  | some g =>
    some (if truthy (group g 1) then
            Except.ok (weatherFcResult ((group g 1).getD "")
              (if truthy (group g 3) then strToNat ((group g 3).getD "") else 3))
          else Except.error "IndexError: no such group")
  | none => none

def ruleNoteAdd : Rule := capRule noteAddCapture (fun content _ u _ => noteAddResult u content)
def ruleNoteList : Rule := boolRule noteListB (fun _ u _ => noteListResult u)
def ruleNoteSearch : Rule := capRule noteSearchCapture (fun q _ u _ => noteSearchResult u q)
def ruleTaskUrgent : Rule := capRule taskUrgentCapture (fun t _ u _ => taskUrgentResult u t)
def ruleTaskAdd : Rule := capRule taskAddCapture (fun t _ u _ => taskAddResult u t)
def ruleTaskList : Rule := boolRule taskListB (fun _ u _ => taskListResult u)
def ruleTaskDone : Rule := capRule taskDoneCapture (fun t _ u _ => taskDoneResult u t)
def ruleMoodStats : Rule := boolRule moodStatsB (fun _ u _ => moodStatsResult u)
def ruleMoodLog : Rule := capRule moodLogCapture (fun t _ u _ => moodLogResult u t)
def ruleCalendarToday : Rule := boolRule calendarTodayB (fun _ u _ => calendarTodayResult u)
def ruleCalendarUpcoming : Rule := boolRule calendarUpcomingB (fun _ u _ => calendarUpcomingResult u)
def ruleBriefing : Rule := boolRule briefingB (fun _ u _ => briefingResult u)
def ruleHabitStatus : Rule := boolRule habitStatusB (fun _ u _ => habitStatusResult u)
def ruleHabitAdd : Rule := capRule habitAddCapture (fun nm _ u _ => habitAddResult u nm)
def ruleHabitList : Rule := boolRule habitListB (fun _ u _ => habitListResult u)
def ruleHabitDone : Rule := capRule habitDoneCapture (fun nm _ u _ => habitDoneResult u nm)
def ruleLearningStatus : Rule := boolRule learningStatusB (fun _ u _ => learningStatusResult u)
def ruleLearningFeedback : Rule := boolRule learningFeedbackB (fun s u _ => learningFeedbackResult u s)
def ruleTurnOn : Rule := capRule turnOnCapture (fun d _ u _ => smartHomeResult "turn_on" d u)
def ruleTurnOff : Rule := capRule turnOffCapture (fun d _ u _ => smartHomeResult "turn_off" d u)
def ruleDeviceStatus : Rule := capRule deviceStatusCapture (fun d _ u _ => smartHomeResult "get_state" d u)

/-- The documented fixed order of `CommandParser.parse` (source order of
the `if`/`match` chain). -/
def rules : List Rule :=
  [ruleTime, ruleDate, ruleReminderText, ruleMinutes, ruleHours, ruleTimer,
   rulePomodoro, ruleBreak, ruleWeatherCurrent, ruleWeatherForecast,
   ruleNoteAdd, ruleNoteList, ruleNoteSearch, ruleTaskUrgent, ruleTaskAdd,
   ruleTaskList, ruleTaskDone, ruleMoodStats, ruleMoodLog,
   ruleCalendarToday, ruleCalendarUpcoming, ruleBriefing, ruleHabitStatus,
   ruleHabitAdd, ruleHabitList, ruleHabitDone, ruleLearningStatus,
   ruleLearningFeedback, ruleTurnOn, ruleTurnOff, ruleDeviceStatus]

/-- `return` of a matched branch, otherwise fall through. -/
def step (o : Option (Except String CommandResult)) (rest : Except String CommandResult) :
    Except String CommandResult :=
  match o with
  | some x => x
  | none => rest

/-- Try rules in order, first match wins; `CommandResult(is_command=False)`
when none matches. -/
def firstRule : List Rule → String → String → Clock → Except String CommandResult
  | [], _, _, _ => Except.ok { is_command := false }
  | rule :: rest, s, u, c => step (rule s u c) (firstRule rest s u c)

/-- The chain of `CommandParser.parse` on the already-stripped text. -/
def parseCore (s u : String) (c : Clock) : Except String CommandResult :=
  step (ruleTime s u c) <|
  step (ruleDate s u c) <|
  step (ruleReminderText s u c) <|
  step (ruleMinutes s u c) <|
  step (ruleHours s u c) <|
  step (ruleTimer s u c) <|
  step (rulePomodoro s u c) <|
  step (ruleBreak s u c) <|
  step (ruleWeatherCurrent s u c) <|
  step (ruleWeatherForecast s u c) <|
  step (ruleNoteAdd s u c) <|
  step (ruleNoteList s u c) <|
  step (ruleNoteSearch s u c) <|
  step (ruleTaskUrgent s u c) <|
  step (ruleTaskAdd s u c) <|
  step (ruleTaskList s u c) <|
  step (ruleTaskDone s u c) <|
  step (ruleMoodStats s u c) <|
  step (ruleMoodLog s u c) <|
  step (ruleCalendarToday s u c) <|
  step (ruleCalendarUpcoming s u c) <|
  step (ruleBriefing s u c) <|
  step (ruleHabitStatus s u c) <|
  step (ruleHabitAdd s u c) <|
  step (ruleHabitList s u c) <|
  step (ruleHabitDone s u c) <|
  step (ruleLearningStatus s u c) <|
  step (ruleLearningFeedback s u c) <|
  step (ruleTurnOn s u c) <|
  step (ruleTurnOff s u c) <|
  step (ruleDeviceStatus s u c) <|
  Except.ok { is_command := false }

/-- `CommandParser.parse(text, user_id)`: strips the text first
(`text = text.strip()`). -/
def parse (text user_id : String) (c : Clock) : Except String CommandResult :=
  parseCore (pyStrip text) user_id c

/-! ## The executor and its collaborators

Every collaborator operation returns `Except String _`: `.error e` models
a raised Python exception with message `e`.  Where the source makes two
collaborator calls whose intermediate value it never inspects (e.g.
`get_notes` + `format_notes` where only the formatted text is used), the
pair is collapsed into a single formatted operation; operations whose
results drive control flow (`search_notes`, `complete_task`,
`parse_mood`, `log_habit`, ...) are kept separate. -/

/-- `scheduler.add_reminder(user_id, message, run_at)`. -/
structure Scheduler where
  add_reminder : String → String → Nat → Except String Unit

/-- One Home Assistant entity as listed by `list_devices`. -/
structure Entity where
  name : String := ""
  entity_id : String := ""
deriving DecidableEq, Repr

/-- The `list_devices` result: `success` plus domain-keyed device lists. -/
structure StatesResult where
  success : Bool := false
  devices : List (String × List Entity) := []
deriving DecidableEq, Repr

/-- A generic action result dict (`success`, optional `message`,
`state`, `friendly_name`). -/
structure ActionResult where
  success : Bool := false
  message : Option String := none
  state : Option String := none
  friendly_name : Option String := none
deriving DecidableEq, Repr

/-- The Home Assistant handle; `execute(action, params)` is split into one
typed operation per action string used by the source. -/
structure HAHandle where
  is_connected : Bool := false
  listDevices : Except String StatesResult
  turnOn : String → Except String ActionResult
  turnOff : String → Except String ActionResult
  getState : String → Except String ActionResult

structure MqttHandle where
  is_connected : Bool := false
  execute : String → String → Except String ActionResult

/-- The integration registry restricted to the two names the source asks
for (`registry.get("home_assistant")`, `registry.get("mqtt")`). -/
structure Registry where
  home_assistant : Option HAHandle := none
  mqtt : Option MqttHandle := none

/-- `weather.get_current(city)` + `weather.format_current(data)` and the
forecast pair, each collapsed into one formatted operation. -/
structure WeatherService where
  is_configured : Bool := false
  currentFormatted : Option String → Except String String
  forecastFormatted : Option String → Nat → Except String String

structure TaskRec where
  title : String := ""
deriving DecidableEq, Repr

/-- The notes/tasks manager (`core.notes.get_notes_manager()`).  Notes are
opaque records (`String` here); tasks carry the title the source reads. -/
structure NotesManager where
  add_note : String → String → Except String Unit
  get_notes : String → Except String (List String)
  format_notes : List String → String
  search_notes : String → String → Except String (List String)
  add_task : String → String → String → Except String TaskRec
  get_tasks : String → Except String (List TaskRec)
  format_tasks : List TaskRec → String
  complete_task : String → String → Except String (Option TaskRec)

/-- The mood tracker; `get_stats` + `format_stats` collapsed. -/
structure MoodTracker where
  parse_mood : String → Except String (Option (String × Int))
  log_mood : String → String → Int → String → Except String Unit
  get_response : String → Except String String
  statsFormatted : String → Except String String

/-- The calendar integration; event fetch + formatting collapsed. -/
structure CalendarIntegration where
  is_authenticated : Bool := false
  todayFormatted : Except String String
  upcomingFormatted : Nat → Except String String

/-- `briefing.generate(user_id)` + `format_briefing` collapsed. -/
structure BriefingGen where
  generateFormatted : String → Except String String

structure Habit where
  id : Nat := 0
  name : String := ""
deriving DecidableEq, Repr

structure HabitLog where
  habit_id : Nat := 0
deriving DecidableEq, Repr

structure HabitTracker where
  add_habit : String → String → Except String Habit
  get_habits : String → Except String (List Habit)
  format_habits : List Habit → String → String
  log_habit : String → String → Except String (Option HabitLog)
  get_streak : String → Habit → Except String Nat
  todayFormatted : String → Except String String

/-- The adaptive style record read by the learning-status branch; the
source's float fields are modelled as rationals. -/
structure Style where
  formality : Rat := 1/2
  humor_level : Rat := 1/2
  verbosity : Rat := 1/2

structure LearningModule where
  get_all_facts : String → Except String (List (String × String))
  get_style : String → Except String Style
  get_stats : String → Except String Unit
  get_evolution_summary : String → Except String String
  update_style_from_feedback : String → String → Except String Unit
  log_evolution : String → String → String → Except String Unit

/-- All collaborators `execute_command` can reach. -/
structure Env where
  scheduler : Scheduler
  registry : Registry
  weather : WeatherService
  notes : NotesManager
  mood : MoodTracker
  calendar : CalendarIntegration
  briefing : BriefingGen
  habits : HabitTracker
  learning : LearningModule

/-- `result.params[key]` for a string value: raises `KeyError` when the
key is missing (the reminder branch indexes `params` directly). -/
def pIndexS (ps : List (String × PValue)) (key : String) : Except String String :=
  match pgetS ps key with
  | some v => Except.ok v
  | none => Except.error ("KeyError: " ++ key)

def pIndexN (ps : List (String × PValue)) (key : String) : Except String Nat :=
  match pgetN ps key with
  | some v => Except.ok v
  | none => Except.error ("KeyError: " ++ key)

/-! ### find_entity_by_name -/

/-- The per-entity checks of the source's inner loop, in source order:
exact lowered-name match, two-way substring containment, query contained
in the lowered entity id. -/
def entityHit (nl : String) (e : Entity) : Bool :=
  let en := lowerAll e.name
  en = nl || (subListB nl.data en.data || subListB en.data nl.data)
    || subListB nl.data (lowerAll e.entity_id).data

/-- The inner `for entity in entities` loop: first entity passing any of
its three checks wins. -/
def findInEntities (nl : String) : List Entity → Option String
  | [] => none
  | e :: rest =>
    let en := lowerAll e.name
    if en = nl then some e.entity_id
    else if subListB nl.data en.data || subListB en.data nl.data then some e.entity_id
    else if subListB nl.data (lowerAll e.entity_id).data then some e.entity_id
    else findInEntities nl rest

/-- The outer `for domain, entities in devices.items()` loop. -/
def findInDomains (nl : String) : List (String × List Entity) → Option String
  | [] => none
  | (_, es) :: rest =>
    match findInEntities nl es with
    | some x => some x
    | none => findInDomains nl rest

/-- `find_entity_by_name(states_result, name)`. -/
def find_entity_by_name (states_result : StatesResult) (nm : String) : Option String :=
  if !states_result.success then none
  else findInDomains (lowerAll nm) states_result.devices

/-! ### Branch executors -/

/-- The `{"success": False, "message": "Устройство '...' не найдено"}` dict. -/
def deviceNotFound (device : String) : ActionResult :=
  { success := false,
    message := some ("Устройство " ++ quoteS ++ device ++ quoteS ++ " не найдено") }

/-- The `do_action` closure of the Home Assistant path. -/
def haDoAction (ha : HAHandle) (action device : String) : Except String ActionResult :=
  if action = "turn_on" then do
    let states ← ha.listDevices
    match find_entity_by_name states device with
    | some entity_id => ha.turnOn entity_id
    | none => Except.ok (deviceNotFound device)
  else if action = "turn_off" then do
    let states ← ha.listDevices
    match find_entity_by_name states device with
    | some entity_id => ha.turnOff entity_id
    | none => Except.ok (deviceNotFound device)
  else if action = "get_state" then do
    let states ← ha.listDevices
    match find_entity_by_name states device with
    | some entity_id => ha.getState entity_id
    | none => Except.ok (deviceNotFound device)
  else Except.ok { success := false, message := some "Unknown action" }

def noIntegrationsMsg : String :=
  "Нет подключенных интеграций умного дома. Настрой Home Assistant или MQTT в админке."

/-- The MQTT stage (reached when no connected Home Assistant handle
returned) followed by the final no-integration message. -/
def smartHomeMqttStage (reg : Registry) (action device : String) :
    Except String (Bool × String) :=
  match reg.mqtt with
  | some mqtt =>
    if mqtt.is_connected then do
      let result_data ← mqtt.execute action device
      if result_data.success then pure (true, "✅ " ++ action ++ " " ++ device)
      else pure (false, result_data.message.getD "Ошибка")
    else pure (false, noIntegrationsMsg)
  | none => pure (false, noIntegrationsMsg)

/-- The body of `execute_smart_home_command`'s `try` block.  Note the
source's success-branch has no `else` for an action outside the three
known ones, so control would fall through to the MQTT stage; that path is
kept although `do_action` makes it unreachable. -/
def smartHomeBody (reg : Registry) (r : CommandResult) : Except String (Bool × String) :=
  let action := (pgetS r.params "action").getD ""
  let device := (pgetS r.params "device").getD ""
  match reg.home_assistant with
  | some ha =>
    if ha.is_connected then do
      let result_data ← haDoAction ha action device
      if result_data.success then
        if action = "turn_on" then pure (true, "✅ Включил " ++ device)
        else if action = "turn_off" then pure (true, "✅ Выключил " ++ device)
        else if action = "get_state" then
          pure (true, "📊 " ++ result_data.friendly_name.getD device ++ ": "
            ++ result_data.state.getD "unknown")
        else smartHomeMqttStage reg action device
      else pure (false, result_data.message.getD "Ошибка")
    else smartHomeMqttStage reg action device
  | none => smartHomeMqttStage reg action device

/-- `execute_smart_home_command`. -/
def execute_smart_home_command (reg : Registry) (r : CommandResult) : Bool × String :=
  match smartHomeBody reg r with
  | Except.ok out => out
  | Except.error e => (false, "Ошибка: " ++ e)

def weatherNotConfiguredMsg : String :=
  "Погода не настроена. Добавь OpenWeatherMap API ключ в настройках."

def weatherBody (w : WeatherService) (r : CommandResult) : Except String (Bool × String) :=
  if !w.is_configured then pure (false, weatherNotConfiguredMsg)
  else
    let city := pgetS r.params "city"
    let is_forecast := (pgetB r.params "forecast").getD false
    if is_forecast then do
      let days := (pgetN r.params "days").getD 3
      let response ← w.forecastFormatted city days
      pure (true, response)
    else do
      let response ← w.currentFormatted city
      pure (true, response)

/-- `execute_weather_command`: note the catch prefix differs from the
other branches (`"Ошибка получения погоды: "`). -/
def execute_weather_command (w : WeatherService) (r : CommandResult) : Bool × String :=
  match weatherBody w r with
  | Except.ok out => out
  | Except.error e => (false, "Ошибка получения погоды: " ++ e)

def noteBody (m : NotesManager) (r : CommandResult) : Except String (Bool × String) :=
  let user_id := (pgetS r.params "user_id").getD "default"
  if r.command_type = some "note_add" then do
    let content := (pgetS r.params "content").getD ""
    let _ ← m.add_note user_id content
    pure (true, "📝 Записала: \"" ++ strTake 50 content
      ++ (if 50 < content.length then "..." else "") ++ "\"")
  else if r.command_type = some "note_list" then do
    let notes ← m.get_notes user_id
    pure (true, m.format_notes notes)
  else if r.command_type = some "note_search" then do
    let q := (pgetS r.params "query").getD ""
    let notes ← m.search_notes user_id q
    if !notes.isEmpty then
      pure (true, "Найдено " ++ toString notes.length ++ " заметок:\n" ++ m.format_notes notes)
    else pure (true, "Заметок с \"" ++ q ++ "\" не найдено")
  else pure (false, "Неизвестная команда заметок")

def execute_note_command (m : NotesManager) (r : CommandResult) : Bool × String :=
  match noteBody m r with
  | Except.ok out => out
  | Except.error e => (false, "Ошибка: " ++ e)

def priorityEmoji (p : String) : String :=
  if p = "urgent" then "🔴" else if p = "high" then "🟠"
  else if p = "normal" then "🟡" else if p = "low" then "🟢" else "📋"

def taskBody (m : NotesManager) (r : CommandResult) : Except String (Bool × String) :=
  let user_id := (pgetS r.params "user_id").getD "default"
  if r.command_type = some "task_add" then do
    let title := (pgetS r.params "title").getD ""
    let priority := (pgetS r.params "priority").getD "normal"
    let _ ← m.add_task user_id title priority
    pure (true, priorityEmoji priority ++ " Добавила задачу: \"" ++ title ++ "\"")
  else if r.command_type = some "task_list" then do
    let tasks ← m.get_tasks user_id
    pure (true, m.format_tasks tasks)
  else if r.command_type = some "task_done" then do
    let title := (pgetS r.params "title").getD ""
    let task ← m.complete_task user_id title
    match task with
    | some t => pure (true, "✅ Отлично! Задача \"" ++ t.title ++ "\" выполнена!")
    | none => pure (false, "Задача \"" ++ title ++ "\" не найдена")
  else pure (false, "Неизвестная команда задач")

def execute_task_command (m : NotesManager) (r : CommandResult) : Bool × String :=
  match taskBody m r with
  | Except.ok out => out
  | Except.error e => (false, "Ошибка: " ++ e)

def moodUnclearMsg : String :=
  "Не совсем поняла. Как именно ты себя чувствуешь? Можешь сказать: хорошо, устал, грустно, или оценить от 1 до 10."

def moodBody (t : MoodTracker) (r : CommandResult) : Except String (Bool × String) :=
  let user_id := (pgetS r.params "user_id").getD "default"
  if r.command_type = some "mood_log" then do
    let text := (pgetS r.params "text").getD ""
    let parsed ← t.parse_mood text
    match parsed with
    | some (mood, score) => do
      let _ ← t.log_mood user_id mood score text
      let response ← t.get_response mood
      pure (true, response)
    | none => pure (true, moodUnclearMsg)
  else if r.command_type = some "mood_stats" then do
    let response ← t.statsFormatted user_id
    pure (true, response)
  else pure (false, "Неизвестная команда настроения")

def execute_mood_command (t : MoodTracker) (r : CommandResult) : Bool × String :=
  match moodBody t r with
  | Except.ok out => out
  | Except.error e => (false, "Ошибка: " ++ e)

def calendarBody (cal : CalendarIntegration) (r : CommandResult) : Except String (Bool × String) :=
  if !cal.is_authenticated then
    pure (false, "Календарь не подключен. Настрой Google Calendar в админке.")
  else if r.command_type = some "calendar_today" then do
    let response ← cal.todayFormatted
    pure (true, response)
  else if r.command_type = some "calendar_upcoming" then do
    let response ← cal.upcomingFormatted 7
    pure (true, response)
  else pure (true, "Неизвестная команда")

def execute_calendar_command (cal : CalendarIntegration) (r : CommandResult) : Bool × String :=
  match calendarBody cal r with
  | Except.ok out => out
  | Except.error e => (false, "Ошибка: " ++ e)

def briefingBody (b : BriefingGen) (r : CommandResult) : Except String (Bool × String) := do
  let user_id := (pgetS r.params "user_id").getD "default"
  let response ← b.generateFormatted user_id
  pure (true, response)

def execute_briefing_command (b : BriefingGen) (r : CommandResult) : Bool × String :=
  match briefingBody b r with
  | Except.ok out => out
  | Except.error e => (false, "Ошибка: " ++ e)

def habitBody (t : HabitTracker) (r : CommandResult) : Except String (Bool × String) :=
  let user_id := (pgetS r.params "user_id").getD "default"
  if r.command_type = some "habit_add" then do
    let nm := (pgetS r.params "name").getD ""
    let habit ← t.add_habit user_id nm
    pure (true, "✨ Добавила привычку: \"" ++ habit.name ++ "\". Говори "
      ++ quoteS ++ "выполнил " ++ nm ++ quoteS ++ " когда сделаешь!")
  else if r.command_type = some "habit_list" then do
    let habits ← t.get_habits user_id
    pure (true, t.format_habits habits user_id)
  else if r.command_type = some "habit_done" then do
    let nm := (pgetS r.params "name").getD ""
    let log ← t.log_habit user_id nm
    match log with
    | some lg => do
      let habits ← t.get_habits user_id
      let habit := habits.find? (fun h => h.id == lg.habit_id)
      let streak ← match habit with
                   | some h => t.get_streak user_id h
                   | none => pure 0
      if streak > 1 then
        pure (true, "🔥 Отлично! " ++ toString streak ++ " дней подряд! Так держать!")
      else pure (true, "✅ Молодец! Привычка отмечена.")
    | none => pure (false, "Привычка \"" ++ nm ++ "\" не найдена")
  else if r.command_type = some "habit_status" then do
    let response ← t.todayFormatted user_id
    pure (true, response)
  else pure (false, "Неизвестная команда привычек")

def execute_habit_command (t : HabitTracker) (r : CommandResult) : Bool × String :=
  match habitBody t r with
  | Except.ok out => out
  | Except.error e => (false, "Ошибка: " ++ e)

def learningBody (l : LearningModule) (r : CommandResult) : Except String (Bool × String) :=
  let user_id := (pgetS r.params "user_id").getD "default"
  if r.command_type = some "learning_status" then do
    let facts ← l.get_all_facts user_id
    let style ← l.get_style user_id
    let _stats ← l.get_stats user_id
    let summary ← l.get_evolution_summary user_id
    let fact_lines := (facts.take 5).map (fun p => "  • " ++ p.1 ++ ": " ++ p.2)
    let parts1 := if !facts.isEmpty then
        [summary, "\n📚 Что я помню о тебе:\n" ++ String.intercalate "\n" fact_lines]
      else [summary]
    let style_parts :=
      (if style.formality < (4 : Rat)/10 then ["неформальный стиль"]
       else if style.formality > (6 : Rat)/10 then ["формальный стиль"] else [])
      ++ (if style.humor_level > (5 : Rat)/10 then ["с юмором"] else [])
      ++ (if style.verbosity < (4 : Rat)/10 then ["краткие ответы"]
          else if style.verbosity > (6 : Rat)/10 then ["подробные ответы"] else [])
    let parts2 := if !style_parts.isEmpty then
        parts1 ++ ["\n🎨 Твой стиль общения: " ++ String.intercalate ", " style_parts]
      else parts1
    pure (true, String.intercalate "\n" parts2)
  else if r.command_type = some "learning_feedback" then do
    let feedback := (pgetS r.params "feedback").getD ""
    let _ ← l.update_style_from_feedback user_id feedback
    let _ ← l.log_evolution user_id "feedback_received" feedback
    pure (true, "✨ Поняла! Буду учитывать это в наших разговорах.")
  else pure (false, "Неизвестная команда")

def execute_learning_command (l : LearningModule) (r : CommandResult) : Bool × String :=
  match learningBody l r with
  | Except.ok out => out
  | Except.error e => (false, "Ошибка: " ++ e)

/-- The reminder/timer/pomodoro/break branch body (`try` block). -/
def reminderBody (s : Scheduler) (r : CommandResult) : Except String (Bool × Option String) := do
  let user_id ← pIndexS r.params "user_id"
  let message ← pIndexS r.params "message"
  let run_at ← pIndexN r.params "run_at"
  let _ ← s.add_reminder user_id message run_at
  pure (true, r.response)

/-- `execute_command(result)`.  `command_type` is read as a string for the
dispatch; the source would raise `AttributeError` on
`None.startswith(...)`, a case no parser output reaches, and we read
`None` as the empty string which likewise selects no branch. -/
def execute_command (env : Env) (r : CommandResult) : Bool × Option String :=
  if !r.is_command then (false, none)
  else
    let ct := r.command_type.getD ""
    if ct ∈ (["reminder", "timer", "pomodoro", "break"] : List String) then
      match reminderBody env.scheduler r with
      | Except.ok out => out
      | Except.error e => (false, some ("Ошибка: " ++ e))
    else if ct = "smart_home" then
      let out := execute_smart_home_command env.registry r
      (out.1, some out.2)
    else if ct = "weather" then
      let out := execute_weather_command env.weather r
      (out.1, some out.2)
    else if strStartsWith ct "note_" then
      let out := execute_note_command env.notes r
      (out.1, some out.2)
    else if strStartsWith ct "task_" then
      let out := execute_task_command env.notes r
      (out.1, some out.2)
    else if strStartsWith ct "mood_" then
      let out := execute_mood_command env.mood r
      (out.1, some out.2)
    else if strStartsWith ct "calendar_" then
      let out := execute_calendar_command env.calendar r
      (out.1, some out.2)
    else if ct = "briefing" then
      let out := execute_briefing_command env.briefing r
      (out.1, some out.2)
    else if strStartsWith ct "habit_" then
      let out := execute_habit_command env.habits r
      (out.1, some out.2)
    else if strStartsWith ct "learning_" then
      let out := execute_learning_command env.learning r
      (out.1, some out.2)
    else (true, r.response)

/-! ## Structural facts about the parser chain -/

theorem step_some (x : Except String CommandResult) (rest : Except String CommandResult) :
    step (some x) rest = x := rfl

theorem step_none (rest : Except String CommandResult) : step none rest = rest := rfl

theorem boolRule_none (cond : String → Bool) (mk : String → String → Clock → CommandResult)
    (s u : String) (c : Clock) (h : cond s = false) : boolRule cond mk s u c = none := by
  unfold boolRule
  rw [h]
  rfl

theorem boolRule_some (cond : String → Bool) (mk : String → String → Clock → CommandResult)
    (s u : String) (c : Clock) (h : cond s = true) :
    boolRule cond mk s u c = some (Except.ok (mk s u c)) := by
  unfold boolRule
  rw [h]
  rfl

theorem capRule_none {α : Type} (cap : String → Option α)
    (mk : α → String → String → Clock → CommandResult) (s u : String) (c : Clock)
    (h : cap s = none) : capRule cap mk s u c = none := by
  unfold capRule
  rw [h]

theorem capRule_some {α : Type} (cap : String → Option α)
    (mk : α → String → String → Clock → CommandResult) (s u : String) (c : Clock) (a : α)
    (h : cap s = some a) : capRule cap mk s u c = some (Except.ok (mk a s u c)) := by
  unfold capRule
  rw [h]

/-- `parseCore` is exactly the ordered first-match scan of `rules`: the
chain of the source's `if`/`match` blocks in their written order. -/
theorem parseCore_eq_firstRule (s u : String) (c : Clock) :
    parseCore s u c = firstRule rules s u c := rfl

/-- When an earlier rule matches, the rest of the list is ignored. -/
theorem firstRule_cons_matched (rule : Rule) (rest : List Rule) (s u : String) (c : Clock)
    (out : Except String CommandResult) (h : rule s u c = some out) :
    firstRule (rule :: rest) s u c = out := by
  unfold firstRule
  rw [h]
  rfl

/-- What every matched branch of the parser guarantees about its result:
the command flag is set, the LLM flag is cleared, and `params` carries
`user_id` except in the three branches that omit it (time, date,
weather). -/
def matchedResult (u : String) (r : CommandResult) : Prop :=
  r.is_command = true ∧ r.execute = false ∧
  (∀ ct, r.command_type = some ct → ct ≠ "time" → ct ≠ "date" → ct ≠ "weather" →
    pget r.params "user_id" = some (PValue.s u))

/-- A rule is good when every `CommandResult` it can emit satisfies
`matchedResult`. -/
def RuleGood (rule : Rule) : Prop :=
  ∀ s u c out r, rule s u c = some out → out = Except.ok r → matchedResult u r

theorem boolRule_good (cond : String → Bool) (mk : String → String → Clock → CommandResult)
    (hmk : ∀ s u c, matchedResult u (mk s u c)) : RuleGood (boolRule cond mk) := by
  intro s u c out r hsome hok
  unfold boolRule at hsome
  by_cases h : cond s = true
  · rw [h] at hsome
    simp only [if_true] at hsome
    injection hsome with h1
    rw [← h1] at hok
    injection hok with h2
    rw [← h2]
    exact hmk s u c
  · rw [eq_false_of_ne_true h] at hsome
    simp at hsome
theorem capRule_good {α : Type} (cap : String → Option α)
    (mk : α → String → String → Clock → CommandResult)
    (hmk : ∀ a s u c, matchedResult u (mk a s u c)) : RuleGood (capRule cap mk) := by
  intro s u c out r hsome hok
  unfold capRule at hsome
  cases hcap : cap s with
  | some a =>
    rw [hcap] at hsome
    injection hsome with h1
    rw [← h1] at hok
    injection hok with h2
    rw [← h2]
    exact hmk a s u c
  | none =>
    rw [hcap] at hsome
    simp at hsome

/-- Every rule in the chain is good. -/
theorem rules_good : ∀ rule ∈ rules, RuleGood rule := by
  intro rule hr
  simp only [rules, List.mem_cons, List.not_mem_nil, or_false] at hr
  rcases hr with rfl | rfl | rfl | rfl | rfl | rfl | rfl | rfl | rfl | rfl | rfl | rfl | rfl |
    rfl | rfl | rfl | rfl | rfl | rfl | rfl | rfl | rfl | rfl | rfl | rfl | rfl | rfl | rfl |
    rfl | rfl | rfl
  all_goals first
    | (refine boolRule_good _ _ ?_
       intro s u c
       refine ⟨rfl, rfl, ?_⟩
       intro ct hct h1 h2 h3
       first
         | rfl
         | exact absurd (Option.some.inj hct).symm h1
         | exact absurd (Option.some.inj hct).symm h2
         | exact absurd (Option.some.inj hct).symm h3)
    | (refine capRule_good _ _ ?_
       intro a s u c
       refine ⟨rfl, rfl, ?_⟩
       intro ct hct h1 h2 h3
       first
         | rfl
         | exact absurd (Option.some.inj hct).symm h1
         | exact absurd (Option.some.inj hct).symm h2
         | exact absurd (Option.some.inj hct).symm h3)
    | (intro s u c out r hsome hok
       unfold ruleWeatherForecast at hsome
       cases hg : reSearch WEATHER_FORECAST s with
       | some g =>
         rw [hg] at hsome
         injection hsome with h1
         by_cases ht : truthy (group g 1) = true
         · rw [if_pos ht] at h1
           rw [← h1] at hok
           injection hok with h2
           rw [← h2]
           exact ⟨rfl, rfl, fun ct hct _ _ h3 => absurd (Option.some.inj hct).symm h3⟩
         · rw [if_neg ht] at h1
           rw [← h1] at hok
           exact Except.noConfusion hok
       | none =>
         rw [hg] at hsome
         exact Option.noConfusion hsome)

/-- The result invariant of the whole scan: an `ok` outcome either came
from a good rule (so it satisfies `matchedResult`) or is the unmatched
default. -/
theorem firstRule_ok : ∀ (l : List Rule), (∀ rule ∈ l, RuleGood rule) →
    ∀ s u c r, firstRule l s u c = Except.ok r →
      (r.is_command = true → matchedResult u r) ∧
      (r.is_command = false → r = { is_command := false }) := by
  intro l
  induction l with
  | nil =>
    intro _ s u c r h
    unfold firstRule at h
    injection h with h1
    refine ⟨?_, fun _ => h1.symm⟩
    intro hc
    rw [← h1] at hc
    exact Bool.noConfusion hc
  | cons rule rest ih =>
    intro hg s u c r h
    unfold firstRule at h
    cases hx : rule s u c with
    | some out =>
      rw [hx, step_some] at h
      have hm := hg rule (List.mem_cons_self rule rest) s u c out r hx h
      refine ⟨fun _ => hm, fun hc => ?_⟩
      rw [hm.1] at hc
      exact Bool.noConfusion hc
    | none =>
      rw [hx, step_none] at h
      exact ih (fun q hq => hg q (List.mem_cons_of_mem _ hq)) s u c r h

/-! ## Concrete test fixtures -/

/-- A fixed parse-time clock: 12:34, Sunday 12 October 2025. -/
def clk0 : Clock := { nowMin := 754, weekday := 6, day := 12, month := 10, year := 2025 }

def strWhichHour : String := "который час"
def strGreet : String := "привет, как дела?"
def strNoteTask : String := "заметка: задача: купить молоко"
def strRemind10 : String := "напомни через 10 минут: купить молоко"
def strRemindWhichHour : String := "напомни через 5 минут: который час"
def strRemind21 : String := "напомни через 21 час: тест"
def strRemind3 : String := "напомни через 3 часа: кофе"

theorem parse_whichHour_eval : parse strWhichHour "u1" clk0 = Except.ok (timeResult clk0) := rfl

theorem parse_greet_eval : parse strGreet "u1" clk0 = Except.ok { is_command := false } := rfl

theorem parse_noteTask_eval :
    parse strNoteTask "u1" clk0 = Except.ok (noteAddResult "u1" "задача: купить молоко") := rfl

theorem parse_remind10_eval :
    parse strRemind10 "u1" clk0 =
      Except.ok (reminderTextResult strRemind10 "u1" clk0 10 "купить молоко") := rfl

theorem parse_remindWhichHour_eval :
    parse strRemindWhichHour "u1" clk0 = Except.ok (timeResult clk0) := rfl

theorem parse_remind21_eval :
    parse strRemind21 "u1" clk0 =
      Except.ok (reminderTextResult strRemind21 "u1" clk0 21 "тест") := rfl

theorem parse_remind3_eval :
    parse strRemind3 "u1" clk0 =
      Except.ok (reminderTextResult strRemind3 "u1" clk0 3 "кофе") := rfl

/-! ## Claims about the parser -/

/-- Claim C1: for every input text and user id, whenever `parse` returns a
`CommandResult`, that result has `execute = false` if `is_command = true`
(every matched command is scripted or executed outside the LLM), and when
no pattern matched the result is the default `CommandResult(is_command
=False)`, whose `execute` flag is the default `true`, routing the message
to the conversational fallback. -/
theorem c1_parse_execute_flag : ∀ (text user_id : String) (c : Clock) (r : CommandResult),
    parse text user_id c = Except.ok r →
      (r.is_command = true → r.execute = false) ∧
      (r.is_command = false → r.execute = true ∧ r.command_type = none ∧ r.params = []) := by
  intro t u c r h
  have hm := firstRule_ok rules rules_good (pyStrip t) u c r h
  refine ⟨fun hc => (hm.1 hc).2.1, fun hc => ?_⟩
  rw [hm.2 hc]
  exact ⟨rfl, rfl, rfl⟩

/-- Witness for C1: on the unmatched input "привет, как дела?" the parser
returns the default result, whose `execute` flag is `true`. -/
theorem c1_witness :
    ({ is_command := false } : CommandResult).execute = true ∧
    ({ is_command := false } : CommandResult).command_type = none :=
  have h := c1_parse_execute_flag strGreet "u1" clk0 { is_command := false } parse_greet_eval
  ⟨(h.2 rfl).1, (h.2 rfl).2.1⟩

/-- Counterexample to C2 as stated: "который час" is parsed as a command
(`is_command = true`, type "time") whose `params` does NOT contain
`user_id` — the time branch builds its result without a params dict. -/
theorem c2_counterexample :
    parse strWhichHour "u1" clk0 = Except.ok (timeResult clk0) ∧
    (timeResult clk0).is_command = true ∧
    pget (timeResult clk0).params "user_id" = none :=
  ⟨parse_whichHour_eval, rfl, rfl⟩

/-- Claim C2 (amended): `params` contains `user_id` for every matched
command whose type is not "time", "date" or "weather" — those three
branches omit it. -/
theorem c2_userid_amended : ∀ (text user_id : String) (c : Clock) (r : CommandResult) (ct : String),
    parse text user_id c = Except.ok r → r.is_command = true → r.command_type = some ct →
    ct ≠ "time" → ct ≠ "date" → ct ≠ "weather" →
    pget r.params "user_id" = some (PValue.s user_id) := by
  intro t u c r ct h hc hct h1 h2 h3
  have hm := firstRule_ok rules rules_good (pyStrip t) u c r h
  exact (hm.1 hc).2.2 ct hct h1 h2 h3

/-- Witness for the amended C2 at the note-add input. -/
theorem c2_witness :
    pget (noteAddResult "u1" "задача: купить молоко").params "user_id" =
      some (PValue.s "u1") :=
  c2_userid_amended strNoteTask "u1" clk0 _ "note_add" parse_noteTask_eval rfl rfl
    (by decide) (by decide) (by decide)

/-- Claim C3: `parse` is exactly the first-match scan of the documented
rule order (`rules` lists the 31 patterns in the source's order); when an
earlier rule matches, all later rules are ignored; and the concrete
message "заметка: задача: купить молоко", which matches both the
note-add pattern and the task-add pattern, resolves to `note_add`. -/
theorem c3_fixed_order :
    (∀ (text user_id : String) (c : Clock),
        parse text user_id c = firstRule rules (pyStrip text) user_id c) ∧
    (∀ (rule : Rule) (rest : List Rule) (s u : String) (c : Clock)
        (out : Except String CommandResult),
        rule s u c = some out → firstRule (rule :: rest) s u c = out) ∧
    (reSearch NOTE_ADD (pyStrip strNoteTask)).isSome = true ∧
    (reSearch TASK_ADD (pyStrip strNoteTask)).isSome = true ∧
    parse strNoteTask "u1" clk0 = Except.ok (noteAddResult "u1" "задача: купить молоко") :=
  ⟨fun _ _ _ => rfl, firstRule_cons_matched, rfl, rfl, parse_noteTask_eval⟩

/-- Witness for C3's first-match lemma at the time rule. -/
theorem c3_witness :
    firstRule [ruleTime] strWhichHour "u1" clk0 = Except.ok (timeResult clk0) :=
  c3_fixed_order.2.1 ruleTime [] strWhichHour "u1" clk0 _ rfl

/-- Counterexample to C4 as stated: "напомни через 5 минут: который час"
matches the reminder-with-text pattern, yet `parse` returns the time
result, because the time-query pattern is tried first. -/
theorem c4_counterexample :
    (rwtCaptures (pyStrip strRemindWhichHour)).isSome = true ∧
    parse strRemindWhichHour "u1" clk0 = Except.ok (timeResult clk0) ∧
    (timeResult clk0).command_type = some "time" :=
  ⟨rfl, parse_remindWhichHour_eval, rfl⟩

/-- Claim C4 (amended): for every input on which the reminder-with-text
branch is actually reached (the earlier time and date patterns do not
match), `parse` returns a reminder whose `run_at` is parse-time now plus
the stated duration, the duration being read as hours exactly when an
hour-indicating word occurs in the text and as minutes otherwise; and on
"напомни через 10 минут: купить молоко" it returns `minutes = 10` with a
response containing "купить молоко". -/
theorem c4_reminder_amended :
    (∀ (text user_id : String) (c : Clock) (amt : Nat) (txt : String),
      timeQueryB (pyStrip text) = false → dateQueryB (pyStrip text) = false →
      rwtCaptures (pyStrip text) = some (amt, txt) →
      parse text user_id c = Except.ok (reminderTextResult (pyStrip text) user_id c amt txt) ∧
      pget (reminderTextResult (pyStrip text) user_id c amt txt).params "minutes" =
        some (PValue.n (if hourWordIn (pyStrip text) then amt * 60 else amt)) ∧
      pget (reminderTextResult (pyStrip text) user_id c amt txt).params "run_at" =
        some (PValue.n (c.nowMin + (if hourWordIn (pyStrip text) then amt * 60 else amt)))) ∧
    (parse strRemind10 "u1" clk0 =
        Except.ok (reminderTextResult strRemind10 "u1" clk0 10 "купить молоко") ∧
      pget (reminderTextResult strRemind10 "u1" clk0 10 "купить молоко").params "minutes" =
        some (PValue.n 10) ∧
      (reminderTextResult strRemind10 "u1" clk0 10 "купить молоко").response =
        some "Хорошо, напомню тебе через 10 минут: \"купить молоко\"" ∧
      containsSub "Хорошо, напомню тебе через 10 минут: \"купить молоко\"" "купить молоко"
        = true) := by
  constructor
  · intro t u c amt txt h1 h2 h3
    have e1 : ruleTime (pyStrip t) u c = none := boolRule_none _ _ _ _ _ h1
    have e2 : ruleDate (pyStrip t) u c = none := boolRule_none _ _ _ _ _ h2
    have e3 : ruleReminderText (pyStrip t) u c =
        some (Except.ok (reminderTextResult (pyStrip t) u c amt txt)) :=
      capRule_some rwtCaptures (fun p s u c => reminderTextResult s u c p.1 p.2)
        _ _ _ (amt, txt) h3
    refine ⟨?_, rfl, rfl⟩
    show parseCore (pyStrip t) u c = _
    unfold parseCore
    rw [e1, step_none, e2, step_none, e3, step_some]
  · exact ⟨parse_remind10_eval, rfl, rfl, rfl⟩

/-- Witness for the amended C4 at the concrete reminder input. -/
theorem c4_witness :
    parse strRemind10 "u1" clk0 =
      Except.ok (reminderTextResult strRemind10 "u1" clk0 10 "купить молоко") :=
  (c4_reminder_amended.1 strRemind10 "u1" clk0 10 "купить молоко" rfl rfl rfl).1

/-- Modelled from the spec: the standard Russian pluralization rule for
hour counts that the specification claims the code reproduces
(N%10==1 and N%100!=11 → "час"; 2 ≤ N%10 ≤ 4 and N%100 not in 12..14 →
"часа"; otherwise → "часов"). -/
def specHourNoun (n : Nat) : String :=
  if n % 10 = 1 ∧ n % 100 ≠ 11 then "час"
  else if 2 ≤ n % 10 ∧ n % 10 ≤ 4 ∧ ¬(12 ≤ n % 100 ∧ n % 100 ≤ 14) then "часа"
  else "часов"

/-- Counterexample to C5 as stated: for N = 21 the source's suffix
expression yields "часов" (and the parser's response indeed says
"21 часов") while the standard rule requires "час". -/
theorem c5_counterexample :
    parse strRemind21 "u1" clk0 =
      Except.ok (reminderTextResult strRemind21 "u1" clk0 21 "тест") ∧
    (reminderTextResult strRemind21 "u1" clk0 21 "тест").response =
      some "Хорошо, напомню тебе через 21 часов: \"тест\"" ∧
    "час" ++ hourSuffix 21 = "часов" ∧
    specHourNoun 21 = "час" ∧
    ¬("час" ++ hourSuffix 21 = specHourNoun 21) :=
  ⟨parse_remind21_eval, rfl, rfl, rfl, by decide⟩

/-- Claim C5 (amended): the source pluralizes by the absolute value of
the count ("", "а", "ов" for 0-1 / 2-4 / 5 and up), which coincides with
the standard Russian rule exactly for counts 1..20 (and diverges at 0 and
at many counts ≥ 21, e.g. 21); for 2 ≤ N ≤ 4 the parser response indeed
says e.g. "3 часа". -/
theorem c5_plural_amended :
    (∀ n : Nat, n < 21 → 1 ≤ n → "час" ++ hourSuffix n = specHourNoun n) ∧
    "час" ++ hourSuffix 0 = "час" ∧ specHourNoun 0 = "часов" ∧
    (reminderTextResult strRemind3 "u1" clk0 3 "кофе").response =
      some "Хорошо, напомню тебе через 3 часа: \"кофе\"" ∧
    parse strRemind3 "u1" clk0 =
      Except.ok (reminderTextResult strRemind3 "u1" clk0 3 "кофе") := by
  refine ⟨?_, rfl, rfl, rfl, parse_remind3_eval⟩
  decide

/-- Witness for the amended C5 at N = 5. -/
theorem c5_witness : "час" ++ hourSuffix 5 = specHourNoun 5 :=
  c5_plural_amended.1 5 (by decide) (by decide)

/-! ## Claims about the executor -/

/-- A scheduler whose `add_reminder` raises `e`. -/
def errScheduler (e : String) : Scheduler := ⟨fun _ _ _ => Except.error e⟩

/-- A connected Home Assistant handle all of whose calls raise `e`. -/
def errHA (e : String) : HAHandle :=
  { is_connected := true, listDevices := Except.error e,
    turnOn := fun _ => Except.error e, turnOff := fun _ => Except.error e,
    getState := fun _ => Except.error e }

def errNotes (e : String) : NotesManager :=
  { add_note := fun _ _ => Except.error e, get_notes := fun _ => Except.error e,
    format_notes := fun _ => "", search_notes := fun _ _ => Except.error e,
    add_task := fun _ _ _ => Except.error e, get_tasks := fun _ => Except.error e,
    format_tasks := fun _ => "", complete_task := fun _ _ => Except.error e }

def errMood (e : String) : MoodTracker :=
  { parse_mood := fun _ => Except.error e, log_mood := fun _ _ _ _ => Except.error e,
    get_response := fun _ => Except.error e, statsFormatted := fun _ => Except.error e }

def errCalendar (e : String) : CalendarIntegration :=
  { is_authenticated := true, todayFormatted := Except.error e,
    upcomingFormatted := fun _ => Except.error e }

def errBriefing (e : String) : BriefingGen := ⟨fun _ => Except.error e⟩

def errHabits (e : String) : HabitTracker :=
  { add_habit := fun _ _ => Except.error e, get_habits := fun _ => Except.error e,
    format_habits := fun _ _ => "", log_habit := fun _ _ => Except.error e,
    get_streak := fun _ _ => Except.error e, todayFormatted := fun _ => Except.error e }

def errLearning (e : String) : LearningModule :=
  { get_all_facts := fun _ => Except.error e, get_style := fun _ => Except.error e,
    get_stats := fun _ => Except.error e, get_evolution_summary := fun _ => Except.error e,
    update_style_from_feedback := fun _ _ => Except.error e,
    log_evolution := fun _ _ _ => Except.error e }

def errWeather (e : String) : WeatherService :=
  { is_configured := true, currentFormatted := fun _ => Except.error e,
    forecastFormatted := fun _ _ => Except.error e }

/-- An environment in which every collaborator call raises `e`. -/
def envErr (e : String) : Env :=
  { scheduler := errScheduler e,
    registry := { home_assistant := some (errHA e), mqtt := none },
    weather := errWeather e, notes := errNotes e, mood := errMood e,
    calendar := errCalendar e, briefing := errBriefing e,
    habits := errHabits e, learning := errLearning e }

/-- Counterexample to C6 as stated: when the weather collaborator raises,
`execute_command` returns a message prefixed "Ошибка получения погоды: ",
which does not have the claimed "Ошибка: " + detail form. -/
theorem c6_counterexample :
    execute_command (envErr "boom") (weatherCurResult (some "Киев")) =
      (false, some "Ошибка получения погоды: boom") ∧
    strStartsWith "Ошибка получения погоды: boom" "Ошибка: " = false :=
  ⟨rfl, rfl⟩

/-- Claim C6 (amended): whenever a collaborator call raises inside an
executor branch, `execute_command` returns `(false, message)` and never
propagates the exception; the message is `"Ошибка: " ++ detail` in every
branch family except weather, whose catch uses the prefix
`"Ошибка получения погоды: "`. -/
theorem c6_errors_amended : ∀ e : String,
    execute_command (envErr e) (minutesResult "u" clk0 5) = (false, some ("Ошибка: " ++ e)) ∧
    execute_command (envErr e) (smartHomeResult "turn_on" "свет" "u") =
      (false, some ("Ошибка: " ++ e)) ∧
    execute_command (envErr e) (noteAddResult "u" "хлеб") = (false, some ("Ошибка: " ++ e)) ∧
    execute_command (envErr e) (taskAddResult "u" "хлеб") = (false, some ("Ошибка: " ++ e)) ∧
    execute_command (envErr e) (moodLogResult "u" "хорошо") = (false, some ("Ошибка: " ++ e)) ∧
    execute_command (envErr e) (calendarTodayResult "u") = (false, some ("Ошибка: " ++ e)) ∧
    execute_command (envErr e) (briefingResult "u") = (false, some ("Ошибка: " ++ e)) ∧
    execute_command (envErr e) (habitAddResult "u" "спорт") = (false, some ("Ошибка: " ++ e)) ∧
    execute_command (envErr e) (learningFeedbackResult "u" "короче") =
      (false, some ("Ошибка: " ++ e)) ∧
    execute_command (envErr e) (weatherCurResult (some "Киев")) =
      (false, some ("Ошибка получения погоды: " ++ e)) :=
  fun _ => ⟨rfl, rfl, rfl, rfl, rfl, rfl, rfl, rfl, rfl, rfl⟩

/-! ### Reduction shapes of the store-backed executor branches -/

theorem taskBody_done (m : NotesManager) (u t : String) :
    taskBody m (taskDoneResult u t) =
      Except.bind (m.complete_task u t) (fun task =>
        match task with
        | some tk => Except.ok (true, "✅ Отлично! Задача \"" ++ tk.title ++ "\" выполнена!")
        | none => Except.ok (false, "Задача \"" ++ t ++ "\" не найдена")) := rfl

theorem taskBody_add (m : NotesManager) (u title : String) :
    taskBody m (taskAddResult u title) =
      Except.bind (m.add_task u title "normal") (fun _ =>
        Except.ok (true, "🟡 Добавила задачу: \"" ++ title ++ "\"")) := rfl

theorem noteBody_add (m : NotesManager) (u content : String) :
    noteBody m (noteAddResult u content) =
      Except.bind (m.add_note u content) (fun _ =>
        Except.ok (true, "📝 Записала: \"" ++ strTake 50 content
          ++ (if 50 < content.length then "..." else "") ++ "\"")) := rfl

theorem moodBody_log (mt : MoodTracker) (u txt : String) :
    moodBody mt (moodLogResult u txt) =
      Except.bind (mt.parse_mood txt) (fun parsed =>
        match parsed with
        | some (mood, score) =>
          Except.bind (mt.log_mood u mood score txt) (fun _ =>
            Except.bind (mt.get_response mood) (fun response =>
              Except.ok (true, response)))
        | none => Except.ok (true, moodUnclearMsg)) := rfl

theorem habitBody_add (ht : HabitTracker) (u nm : String) :
    habitBody ht (habitAddResult u nm) =
      Except.bind (ht.add_habit u nm) (fun habit =>
        Except.ok (true, "✨ Добавила привычку: \"" ++ habit.name ++ "\". Говори "
          ++ quoteS ++ "выполнил " ++ nm ++ quoteS ++ " когда сделаешь!")) := rfl

/-- The habit-done branch; the elaborated source shares the streak
continuation between the found/not-found arms, so it is written inside
each arm here. -/
theorem habitBody_done (ht : HabitTracker) (u nm : String) :
    habitBody ht (habitDoneResult u nm) =
      Except.bind (ht.log_habit u nm) (fun log =>
        match log with
        | some lg =>
          Except.bind (ht.get_habits u) (fun habits =>
            match habits.find? (fun h => h.id == lg.habit_id) with
            | some h =>
              Except.bind (ht.get_streak u h) (fun streak =>
                if streak > 1 then
                  Except.ok (true, "🔥 Отлично! " ++ toString streak ++ " дней подряд! Так держать!")
                else Except.ok (true, "✅ Молодец! Привычка отмечена."))
            | none =>
              Except.bind (Except.ok 0) (fun streak =>
                if streak > 1 then
                  Except.ok (true, "🔥 Отлично! " ++ toString streak ++ " дней подряд! Так держать!")
                else Except.ok (true, "✅ Молодец! Привычка отмечена.")))
        | none => Except.ok (false, "Привычка \"" ++ nm ++ "\" не найдена")) := rfl

/-- A mood tracker whose parser cannot interpret any text. -/
def mtUnclear : MoodTracker :=
  { parse_mood := fun _ => Except.ok none, log_mood := fun _ _ _ _ => Except.ok (),
    get_response := fun _ => Except.ok "", statsFormatted := fun _ => Except.ok "" }

/-- Counterexample to C7 as stated: a mood-log whose text the mood parser
cannot interpret yields `(true, clarification prompt)`, not `(false, _)`. -/
theorem c7_counterexample :
    execute_mood_command mtUnclear (moodLogResult "u1" "абракадабра") = (true, moodUnclearMsg) ∧
    moodUnclearMsg = "Не совсем поняла. Как именно ты себя чувствуешь? Можешь сказать: хорошо, устал, грустно, или оценить от 1 до 10." ∧
    (true : Bool) ≠ false :=
  ⟨rfl, rfl, by decide⟩

/-- Claim C7 (amended): for the store-backed intents, a found (or created)
record yields `success = true` — with a message carrying the matched
title/name/content for `task_done`, `task_add`, `note_add` and
`habit_add`, but a title-free message for `habit_done` — and a record not
found by fuzzy lookup yields `(false, explanatory message)` for
`task_done` and `habit_done`, while `mood_log` with uninterpretable text
yields `(true, clarification prompt)` rather than a failure. -/
theorem c7_stores_amended :
    (∀ (m : NotesManager) (u t : String) (task : TaskRec),
        m.complete_task u t = Except.ok (some task) →
        execute_task_command m (taskDoneResult u t) =
          (true, "✅ Отлично! Задача \"" ++ task.title ++ "\" выполнена!")) ∧
    (∀ (m : NotesManager) (u t : String),
        m.complete_task u t = Except.ok none →
        execute_task_command m (taskDoneResult u t) =
          (false, "Задача \"" ++ t ++ "\" не найдена")) ∧
    (∀ (ht : HabitTracker) (u nm : String),
        ht.log_habit u nm = Except.ok none →
        execute_habit_command ht (habitDoneResult u nm) =
          (false, "Привычка \"" ++ nm ++ "\" не найдена")) ∧
    (∀ (ht : HabitTracker) (u nm : String) (lg : HabitLog) (hs : List Habit) (h : Habit) (s : Nat),
        ht.log_habit u nm = Except.ok (some lg) →
        ht.get_habits u = Except.ok hs →
        hs.find? (fun hb => hb.id == lg.habit_id) = some h →
        ht.get_streak u h = Except.ok s →
        execute_habit_command ht (habitDoneResult u nm) =
          (true, if s > 1 then "🔥 Отлично! " ++ toString s ++ " дней подряд! Так держать!"
                 else "✅ Молодец! Привычка отмечена.")) ∧
    (∀ (mt : MoodTracker) (u txt : String),
        mt.parse_mood txt = Except.ok none →
        execute_mood_command mt (moodLogResult u txt) = (true, moodUnclearMsg)) ∧
    (∀ (mt : MoodTracker) (u txt mood : String) (score : Int) (resp : String),
        mt.parse_mood txt = Except.ok (some (mood, score)) →
        mt.log_mood u mood score txt = Except.ok () →
        mt.get_response mood = Except.ok resp →
        execute_mood_command mt (moodLogResult u txt) = (true, resp)) ∧
    (∀ (m : NotesManager) (u content : String),
        m.add_note u content = Except.ok () →
        execute_note_command m (noteAddResult u content) =
          (true, "📝 Записала: \"" ++ strTake 50 content
            ++ (if 50 < content.length then "..." else "") ++ "\"")) ∧
    (∀ (m : NotesManager) (u title : String) (task : TaskRec),
        m.add_task u title "normal" = Except.ok task →
        execute_task_command m (taskAddResult u title) =
          (true, "🟡 Добавила задачу: \"" ++ title ++ "\"")) ∧
    (∀ (ht : HabitTracker) (u nm : String) (hb : Habit),
        ht.add_habit u nm = Except.ok hb →
        execute_habit_command ht (habitAddResult u nm) =
          (true, "✨ Добавила привычку: \"" ++ hb.name ++ "\". Говори "
            ++ quoteS ++ "выполнил " ++ nm ++ quoteS ++ " когда сделаешь!")) := by
  refine ⟨?_, ?_, ?_, ?_, ?_, ?_, ?_, ?_, ?_⟩
  · intro m u t task h
    unfold execute_task_command
    rw [taskBody_done, h]
    rfl
  · intro m u t h
    unfold execute_task_command
    rw [taskBody_done, h]
    rfl
  · intro ht u nm h
    unfold execute_habit_command
    rw [habitBody_done, h]
    rfl
  · intro ht u nm lg hs h s h1 h2 h3 h4
    unfold execute_habit_command
    rw [habitBody_done]
    simp only [h1, h2, h3, h4, Except.bind]
    by_cases hgt : s > 1
    · rw [if_pos hgt, if_pos hgt]
    · rw [if_neg hgt, if_neg hgt]
  · intro mt u txt h
    unfold execute_mood_command
    rw [moodBody_log, h]
    rfl
  · intro mt u txt mood score resp h1 h2 h3
    unfold execute_mood_command
    rw [moodBody_log]
    simp only [h1, h2, h3, Except.bind]
  · intro m u content h
    unfold execute_note_command
    rw [noteBody_add, h]
    rfl
  · intro m u title task h
    unfold execute_task_command
    rw [taskBody_add, h]
    rfl
  · intro ht u nm hb h
    unfold execute_habit_command
    rw [habitBody_add, h]
    rfl

/-- A notes manager whose task lookups find nothing. -/
def nmNotFound : NotesManager :=
  { add_note := fun _ _ => Except.ok (), get_notes := fun _ => Except.ok [],
    format_notes := fun _ => "", search_notes := fun _ _ => Except.ok [],
    add_task := fun _ _ _ => Except.ok {}, get_tasks := fun _ => Except.ok [],
    format_tasks := fun _ => "", complete_task := fun _ _ => Except.ok none }

/-- Witness for the amended C7: completing an unknown task returns the
explanatory not-found message. -/
theorem c7_witness :
    execute_task_command nmNotFound (taskDoneResult "u1" "хлеб") =
      (false, "Задача \"хлеб\" не найдена") :=
  c7_stores_amended.2.1 nmNotFound "u1" "хлеб" rfl

/-! ### Entity resolution (claim C8) -/

/-- The devices dict flattened in iteration order (domains in dict order,
entities within a domain in list order). -/
def flattenDevices (ds : List (String × List Entity)) : List Entity :=
  (ds.map Prod.snd).join

theorem findCons_pos {α : Type} (p : α → Bool) (a : α) (l : List α) (h : p a = true) :
    List.find? p (a :: l) = some a := by
  unfold List.find?
  rw [h]

theorem findCons_neg {α : Type} (p : α → Bool) (a : α) (l : List α) (h : p a = false) :
    List.find? p (a :: l) = List.find? p l := by
  have e : List.find? p (a :: l) =
      (match p a with | true => some a | false => List.find? p l) := rfl
  rw [e, h]

theorem findAppend {α : Type} (p : α → Bool) : ∀ (l1 l2 : List α),
    List.find? p (l1 ++ l2) =
      (match List.find? p l1 with
       | some x => some x
       | none => List.find? p l2) := by
  intro l1 l2
  induction l1 with
  | nil => rfl
  | cons a l ih =>
    show List.find? p (a :: (l ++ l2)) = _
    cases ha : p a with
    | true =>
      rw [findCons_pos _ _ _ ha, findCons_pos _ _ _ ha]
    | false =>
      rw [findCons_neg _ _ _ ha, findCons_neg _ _ _ ha, ih]

/-- The inner entity loop returns the first entity (in list order) passing
any of its three per-entity checks. -/
theorem findInEntities_eq (nl : String) : ∀ es : List Entity,
    findInEntities nl es = (es.find? (entityHit nl)).map Entity.entity_id := by
  intro es
  induction es with
  | nil => rfl
  | cons e rest ih =>
    by_cases h1 : lowerAll e.name = nl
    · rw [findCons_pos _ _ _ (by simp [entityHit, h1])]
      unfold findInEntities
      rw [if_pos h1]
      rfl
    · by_cases h2 : (subListB nl.data (lowerAll e.name).data
          || subListB (lowerAll e.name).data nl.data) = true
      · rw [findCons_pos _ _ _ (by simp [entityHit, h2])]
        unfold findInEntities
        rw [if_neg h1, if_pos h2]
        rfl
      · by_cases h3 : subListB nl.data (lowerAll e.entity_id).data = true
        · rw [findCons_pos _ _ _ (by
            simp [entityHit, decide_eq_false h1, (Bool.not_eq_true _).mp h2, h3])]
          unfold findInEntities
          rw [if_neg h1, if_neg h2, if_pos h3]
          rfl
        · rw [findCons_neg _ _ _ (by
            simp [entityHit, decide_eq_false h1, (Bool.not_eq_true _).mp h2,
              (Bool.not_eq_true _).mp h3])]
          unfold findInEntities
          rw [if_neg h1, if_neg h2, if_neg h3]
          exact ih

theorem findInDomains_eq (nl : String) : ∀ ds : List (String × List Entity),
    findInDomains nl ds = ((flattenDevices ds).find? (entityHit nl)).map Entity.entity_id := by
  intro ds
  induction ds with
  | nil => rfl
  | cons p rest ih =>
    unfold findInDomains
    rw [findInEntities_eq]
    have hf : flattenDevices (p :: rest) = p.2 ++ flattenDevices rest := rfl
    rw [hf, findAppend]
    cases hx : List.find? (entityHit nl) p.2 with
    | some x => rfl
    | none =>
      show findInDomains nl rest = _
      exact ih

/-- Modelled from the spec: three priority tiers evaluated in order over
the whole device list — first an entity whose name equals the query
case-insensitively, only then one related by substring containment of
names, and only then one whose raw entity id contains the query. -/
def tieredFind (st : StatesResult) (nm : String) : Option String :=
  if !st.success then none
  else
    let nl := lowerAll nm
    let es := flattenDevices st.devices
    match es.find? (fun e => lowerAll e.name = nl) with
    | some e => some e.entity_id
    | none =>
      match es.find? (fun e => subListB nl.data (lowerAll e.name).data
          || subListB (lowerAll e.name).data nl.data) with
      | some e => some e.entity_id
      | none =>
        (es.find? (fun e => subListB nl.data (lowerAll e.entity_id).data)).map Entity.entity_id

/-- A device list in which an entity merely containing the query comes
before an entity whose name is exactly the query. -/
def st0 : StatesResult :=
  { success := true,
    devices := [("light", [{ name := "свет кухня", entity_id := "light.kitchen" },
                           { name := "свет", entity_id := "light.main" }])] }

/-- Counterexample to C8 as stated: for the query "свет" over `st0` the
source's resolution returns the earlier substring match
("light.kitchen"), while the claimed whole-list tier policy would return
the exact match "light.main". -/
theorem c8_counterexample :
    find_entity_by_name st0 "свет" = some "light.kitchen" ∧
    tieredFind st0 "свет" = some "light.main" ∧
    ¬(find_entity_by_name st0 "свет" = tieredFind st0 "свет") :=
  ⟨rfl, rfl, by decide⟩

/-- Claim C8 (amended): the resolution walks the device list in iteration
order and, per entity, applies the three checks (exact name, two-way
substring, id substring); the first entity passing any check wins — so an
earlier substring match beats a later exact match; `None` when the device
listing was not successful. -/
theorem c8_find_amended : ∀ (st : StatesResult) (nm : String),
    find_entity_by_name st nm =
      if st.success = true then
        ((flattenDevices st.devices).find? (entityHit (lowerAll nm))).map Entity.entity_id
      else none := by
  intro st nm
  unfold find_entity_by_name
  cases hs : st.success with
  | true =>
    rw [if_pos rfl]
    show findInDomains (lowerAll nm) st.devices = _
    exact findInDomains_eq _ _
  | false =>
    rfl

/-- Claim C9: with no connected smart-home integration the executor
returns the instructional no-integrations message, and with the weather
service unconfigured it returns the instructional weather message; both
with `success = false` and the documented leading phrases. -/
theorem c9_missing_integrations :
    (∀ (reg : Registry) (r : CommandResult),
      (∀ ha, reg.home_assistant = some ha → ha.is_connected = false) →
      (∀ m, reg.mqtt = some m → m.is_connected = false) →
      execute_smart_home_command reg r = (false, noIntegrationsMsg) ∧
      strStartsWith noIntegrationsMsg "Нет подключенных интеграций умного дома" = true) ∧
    (∀ (w : WeatherService) (r : CommandResult), w.is_configured = false →
      execute_weather_command w r = (false, weatherNotConfiguredMsg) ∧
      strStartsWith weatherNotConfiguredMsg "Погода не настроена" = true) := by
  constructor
  · intro reg r hha hmq
    refine ⟨?_, rfl⟩
    unfold execute_smart_home_command smartHomeBody
    cases hx : reg.home_assistant with
    | some ha =>
      dsimp only
      rw [hha ha hx]
      unfold smartHomeMqttStage
      cases hy : reg.mqtt with
      | some m =>
        dsimp only
        rw [hmq m hy]
        rfl
      | none => rfl
    | none =>
      unfold smartHomeMqttStage
      cases hy : reg.mqtt with
      | some m =>
        dsimp only
        rw [hmq m hy]
        rfl
      | none => rfl
  · intro w r hw
    refine ⟨?_, rfl⟩
    unfold execute_weather_command weatherBody
    rw [hw]
    rfl

def reg0 : Registry := { home_assistant := none, mqtt := none }

def w0 : WeatherService :=
  { is_configured := false, currentFormatted := fun _ => Except.ok "",
    forecastFormatted := fun _ _ => Except.ok "" }

/-- Witness for C9 at an empty registry and an unconfigured weather
service, on the parse results of Scenario 3/4 inputs. -/
theorem c9_witness :
    execute_smart_home_command reg0 (smartHomeResult "turn_on" "свет в гостиной" "u1") =
      (false, noIntegrationsMsg) ∧
    execute_weather_command w0 (weatherCurResult (some "Киеве")) =
      (false, weatherNotConfiguredMsg) :=
  ⟨(c9_missing_integrations.1 reg0 (smartHomeResult "turn_on" "свет в гостиной" "u1")
      (fun _ h => Option.noConfusion h) (fun _ h => Option.noConfusion h)).1,
   (c9_missing_integrations.2 w0 (weatherCurResult (some "Киеве")) rfl).1⟩

/-- The dispatch conditions of `execute_command`, as one predicate: the
nine branch families plus the smart-home/weather/briefing exact tags. -/
def dispatchedFamily (ct : String) : Prop :=
  ct ∈ (["reminder", "timer", "pomodoro", "break"] : List String) ∨ ct = "smart_home"
  ∨ ct = "weather" ∨ strStartsWith ct "note_" = true ∨ strStartsWith ct "task_" = true
  ∨ strStartsWith ct "mood_" = true ∨ strStartsWith ct "calendar_" = true ∨ ct = "briefing"
  ∨ strStartsWith ct "habit_" = true ∨ strStartsWith ct "learning_" = true

instance (ct : String) : Decidable (dispatchedFamily ct) := by
  unfold dispatchedFamily
  infer_instance

/-- Claim C10: a command result whose type lies outside all dispatched
branch families — in particular "time" and "date" — passes through
`execute_command` unchanged as `(true, response)`, for every collaborator
environment (so no collaborator is invoked). -/
theorem c10_passthrough :
    (∀ (env : Env) (r : CommandResult) (ct : String),
      r.is_command = true → r.command_type = some ct → ¬dispatchedFamily ct →
      execute_command env r = (true, r.response)) ∧
    ¬dispatchedFamily "time" ∧ ¬dispatchedFamily "date" := by
  refine ⟨?_, by decide, by decide⟩
  intro env r ct hic hct hnd
  simp only [dispatchedFamily, not_or] at hnd
  obtain ⟨n1, n2, n3, n4, n5, n6, n7, n8, n9, n10⟩ := hnd
  unfold execute_command
  rw [hic, hct, if_neg (by decide : ¬((!true) = true))]
  dsimp only [Option.getD]
  rw [if_neg n1, if_neg n2, if_neg n3, if_neg n4, if_neg n5, if_neg n6, if_neg n7,
    if_neg n8, if_neg n9, if_neg n10]

/-- Witness for C10: the time result passes through the all-raising
environment untouched. -/
theorem c10_witness :
    execute_command (envErr "x") (timeResult clk0) = (true, (timeResult clk0).response) :=
  c10_passthrough.1 (envErr "x") (timeResult clk0) "time" rfl rfl (by decide)
